import Mathlib

/-!
Verification of the soltxs instruction decoding and resolution engine.

The Python sources under `soltxs/` are shallowly embedded here:
* `bytes` values become `List Nat` (each entry a byte value `< 256`),
* fallible code (Python exceptions: `IndexError`, `NotImplementedError`,
  `ValueError`, binary/base58 decode errors) returns `Except PyErr`,
* Python `float` arithmetic in the resolver layer is modelled as exact
  rational arithmetic over `Rat`,
* dataclasses become structures / inductive variants with the same fields.

Parts of the repository referenced by the sources but not present in the
snapshot (the `raydiumAMM` parser module and the PumpFun `Swap` parsed
instruction consumed by the resolvers) are modelled from the specification;
each such definition carries a doc comment starting `Modelled from the spec:`.
-/

set_option maxRecDepth 10000

namespace Soltxs

/-- Decidable equality for `Except` results, so that concrete runs of the
embedded decoders can be checked by `decide`. -/
instance instDecEqExcept {ε α : Type} [DecidableEq ε] [DecidableEq α] :
    DecidableEq (Except ε α) := fun x y =>
  match x, y with
  | Except.ok a, Except.ok b =>
    if h : a = b then Decidable.isTrue (by rw [h])
    else Decidable.isFalse (by intro he; cases he; exact h rfl)
  | Except.error a, Except.error b =>
    if h : a = b then Decidable.isTrue (by rw [h])
    else Decidable.isFalse (by intro he; cases he; exact h rfl)
  | Except.ok _, Except.error _ => Decidable.isFalse (by intro he; cases he)
  | Except.error _, Except.ok _ => Decidable.isFalse (by intro he; cases he)

/-- Error outcomes of the embedded Python code: `indexError` models Python
`IndexError` (out-of-range list access), `notImplementedError` models the
`NotImplementedError` raised by `Program.route` on an unrecognized
discriminator, `valueError` models `ValueError` (missing token decimals),
and `decodeError` models failures of the binary/base58/utf8 decoders. -/
inductive PyErr where
  | indexError
  | notImplementedError
  | valueError
  | decodeError
deriving DecidableEq, Repr

/-- Embeds `soltxs.normalizer.models.AddressTableLookup`. -/
structure AddressTableLookup where
  accountKey : String
  readonlyIndexes : List Nat
  writableIndexes : List Nat
deriving DecidableEq, Repr

/-- Embeds `soltxs.normalizer.models.Instruction`: a raw transaction
instruction with a program-id index, base58 data text, account indices and
an optional stack height. -/
structure Instruction where
  programIdIndex : Nat
  data : Option String
  accounts : List Nat
  stackHeight : Option Nat
deriving DecidableEq, Repr

/-- Embeds `soltxs.normalizer.models.Message`. -/
structure Message where
  accountKeys : List String
  recentBlockhash : String
  instructions : List Instruction
  addressTableLookups : List AddressTableLookup
deriving DecidableEq, Repr

/-- Embeds `soltxs.normalizer.models.TokenAmount`; the float-typed
`uiAmount` field is modelled as an exact rational. -/
structure TokenAmount where
  amount : String
  decimals : Nat
  uiAmount : Option Rat
  uiAmountString : String
deriving DecidableEq, Repr

/-- Embeds `soltxs.normalizer.models.TokenBalance`. -/
structure TokenBalance where
  accountIndex : Nat
  mint : String
  owner : String
  programId : Option String
  uiTokenAmount : TokenAmount
deriving DecidableEq, Repr

/-- Embeds one inner instruction record of an inner-instruction group
(`Dict[str, Any]` in the source, with keys `programIdIndex`, `data`,
`accounts`, used by `_PumpFunParser._parse_swap`); a missing `data` key is
an absent `Option` (the source reads it with `.get("data", "")`). -/
structure InnerInstr where
  programIdIndex : Nat
  data : Option String
  accounts : List Nat
deriving DecidableEq, Repr

/-- Embeds one inner-instruction group (`Dict[str, Any]` in
`Meta.innerInstructions`): an optional owning top-level index (the source
tests `"index" in group`) and the nested instruction list. -/
structure InnerGroup where
  index : Option Nat
  instructions : List InnerInstr
deriving DecidableEq, Repr

/-- Embeds `soltxs.normalizer.models.Meta`; the `Any`-typed `err` and
`status` fields, unused by the decoding core, are modelled opaquely as
optional text. -/
structure Meta where
  fee : Nat
  preBalances : List Int
  postBalances : List Int
  preTokenBalances : List TokenBalance
  postTokenBalances : List TokenBalance
  innerInstructions : List InnerGroup
  logMessages : List String
  err : Option String
  status : Option String
  computeUnitsConsumed : Option Nat
deriving DecidableEq, Repr

/-- Embeds `soltxs.normalizer.models.LoadedAddresses`. -/
structure LoadedAddresses where
  writable : List String
  readonly : List String
deriving DecidableEq, Repr

/-- Embeds `soltxs.normalizer.models.Transaction`. -/
structure Transaction where
  slot : Nat
  blockTime : Option Int
  signatures : List String
  message : Message
  meta : Meta
  loadedAddresses : LoadedAddresses
deriving DecidableEq, Repr

/-- Embeds `Transaction.all_accounts`: the unified account list, built by
extending a copy of the static keys with the loaded writable and then the
loaded readonly addresses. -/
def Transaction.all_accounts (tx : Transaction) : List String :=
  tx.message.accountKeys ++ tx.loadedAddresses.writable ++ tx.loadedAddresses.readonly

/-- Little-endian byte interpretation, the embedding of Python
`int.from_bytes(bs, byteorder="little", signed=False)`; like the Python
original it accepts byte strings of any length (shorter slices simply
yield smaller values). -/
def leBytes (bs : List Nat) : Nat :=
  bs.foldr (fun b acc => acc * 256 + b) 0

/-- Big-endian byte interpretation (used by base58 and by SHA-256). -/
def beBytes (bs : List Nat) : Nat :=
  bs.foldl (fun acc b => acc * 256 + b) 0

/-- Signed little-endian interpretation of an 8-byte slice (Python
`int.from_bytes(bs, "little", signed=True)` for 64-bit values). -/
def leI64 (bs : List Nat) : Int :=
  let n := leBytes bs
  if n < 2 ^ 63 then (n : Int) else (n : Int) - 2 ^ 64

/-- Fuel-driven loop producing big-endian base-256 digits; the fuel is
instantiated with the number itself, which always suffices because the
digit count of a positive `n` never exceeds `n`. -/
def natToBEBytesGo : Nat → Nat → List Nat
  | 0, _ => []
  | fuel + 1, n => if n = 0 then [] else natToBEBytesGo fuel (n / 256) ++ [n % 256]

/-- Big-endian base-256 digits of a natural number, most significant
first, with no leading zero digit (empty for zero). -/
def natToBEBytes (n : Nat) : List Nat := natToBEBytesGo n n

/-- Fuel-driven loop producing base-58 digits. -/
def natToB58DigitsGo : Nat → Nat → List Nat
  | 0, _ => []
  | fuel + 1, n => if n = 0 then [] else natToB58DigitsGo fuel (n / 58) ++ [n % 58]

/-- Base-58 digits of a natural number, most significant first. -/
def natToB58Digits (n : Nat) : List Nat := natToB58DigitsGo n n

/-- The bitcoin base58 alphabet used by the `qbase58` dependency. -/
def b58Alphabet : List Char :=
  "123456789ABCDEFGHJKLMNPQRSTUVWXYZabcdefghijkmnopqrstuvwxyz".data

/-- Embeds `qbase58.decode`: leading `1` characters become leading zero
bytes, the remaining characters are base-58 digits of a big-endian
integer; a character outside the alphabet is a decode failure. -/
def base58Decode (s : String) : Except PyErr (List Nat) := do
  let digits ← s.data.mapM fun c =>
    match b58Alphabet.findIdx? (· = c) with
    | some i => Except.ok i
    | none => Except.error PyErr.decodeError
  let n := digits.foldl (fun acc d => acc * 58 + d) 0
  let zeros := (s.data.takeWhile (· = '1')).length
  Except.ok (List.replicate zeros 0 ++ natToBEBytes n)

/-- Embeds `qbase58.encode` (composed with utf-8 text decoding as in the
source's `base58.encode(b).decode("utf-8")`): leading zero bytes become
leading `1` characters, the rest is the base-58 rendering of the
big-endian integer value. -/
def base58Encode (bs : List Nat) : String :=
  let zeros := (bs.takeWhile (· = 0)).length
  let digits := natToB58Digits (beBytes bs)
  String.mk (List.replicate zeros '1' ++ digits.map fun d => b58Alphabet.getD d '1')

/-- Decodes one UTF-8 scalar value from the head of a byte list, returning
the character and the remaining bytes; malformed, overlong, surrogate and
out-of-range sequences are decode failures. -/
def utf8Char : List Nat → Except PyErr (Char × List Nat)
  | [] => Except.error PyErr.decodeError
  | b :: rest =>
    if b < 128 then Except.ok (Char.ofNat b, rest)
    else if 192 ≤ b ∧ b < 224 then
      match rest with
      | b1 :: r =>
        if 128 ≤ b1 ∧ b1 < 192 then
          let cp := (b - 192) * 64 + (b1 - 128)
          if cp < 128 then Except.error PyErr.decodeError
          else Except.ok (Char.ofNat cp, r)
        else Except.error PyErr.decodeError
      | _ => Except.error PyErr.decodeError
    else if 224 ≤ b ∧ b < 240 then
      match rest with
      | b1 :: b2 :: r =>
        if (128 ≤ b1 ∧ b1 < 192) ∧ (128 ≤ b2 ∧ b2 < 192) then
          let cp := (b - 224) * 4096 + (b1 - 128) * 64 + (b2 - 128)
          if cp < 2048 ∨ (55296 ≤ cp ∧ cp < 57344) then Except.error PyErr.decodeError
          else Except.ok (Char.ofNat cp, r)
        else Except.error PyErr.decodeError
      | _ => Except.error PyErr.decodeError
    else if 240 ≤ b ∧ b < 245 then
      match rest with
      | b1 :: b2 :: b3 :: r =>
        if (128 ≤ b1 ∧ b1 < 192) ∧ (128 ≤ b2 ∧ b2 < 192) ∧ (128 ≤ b3 ∧ b3 < 192) then
          let cp := (b - 240) * 262144 + (b1 - 128) * 4096 + (b2 - 128) * 64 + (b3 - 128)
          if cp < 65536 ∨ 1114112 ≤ cp then Except.error PyErr.decodeError
          else Except.ok (Char.ofNat cp, r)
        else Except.error PyErr.decodeError
      | _ => Except.error PyErr.decodeError
    else Except.error PyErr.decodeError

/-- Fuel-driven loop decoding a whole UTF-8 byte list; the fuel is
instantiated with the list length, which always suffices because each
step consumes at least one byte. -/
def utf8Go : Nat → List Nat → Except PyErr (List Char)
  | _, [] => Except.ok []
  | 0, _ :: _ => Except.error PyErr.decodeError
  | fuel + 1, bs => do
    let (c, rest) ← utf8Char bs
    let cs ← utf8Go fuel rest
    Except.ok (c :: cs)

/-- UTF-8 text decoding of a byte list (Python `bytes.decode("utf-8")`);
invalid UTF-8 is a decode failure. -/
def utf8Decode (bs : List Nat) : Except PyErr String :=
  (utf8Go bs.length bs).map String.mk

/-- UTF-8 encoding of one character. -/
def utf8CharBytes (c : Char) : List Nat :=
  let n := c.toNat
  if n < 128 then [n]
  else if n < 2048 then [192 + n / 64, 128 + n % 64]
  else if n < 65536 then [224 + n / 4096, 128 + n / 64 % 64, 128 + n % 64]
  else [240 + n / 262144, 128 + n / 4096 % 64, 128 + n / 64 % 64, 128 + n % 64]

/-- UTF-8 encoding of a string (Python `str.encode("utf-8")`). -/
def utf8Encode (s : String) : List Nat :=
  s.data.flatMap utf8CharBytes

/-- Borsh primitive: consume exactly `n` bytes; reading past the end of
the slice is a decode failure (never a silent truncation). -/
def readBytes (n : Nat) (bs : List Nat) : Except PyErr (List Nat × List Nat) :=
  if n ≤ bs.length then Except.ok (bs.take n, bs.drop n)
  else Except.error PyErr.decodeError

/-- Borsh primitive `U32`: 4-byte little-endian unsigned integer. -/
def readU32 (bs : List Nat) : Except PyErr (Nat × List Nat) := do
  let (w, r) ← readBytes 4 bs
  Except.ok (leBytes w, r)

/-- Borsh primitive `U64`: 8-byte little-endian unsigned integer. -/
def readU64 (bs : List Nat) : Except PyErr (Nat × List Nat) := do
  let (w, r) ← readBytes 8 bs
  Except.ok (leBytes w, r)

/-- Borsh primitive `I64`: 8-byte little-endian signed integer. -/
def readI64 (bs : List Nat) : Except PyErr (Int × List Nat) := do
  let (w, r) ← readBytes 8 bs
  Except.ok (leI64 w, r)

/-- Borsh primitive `Bool`: one byte, `0` decodes to `false` and `1` to
`true`; any other value is a decode failure. -/
def readBool (bs : List Nat) : Except PyErr (Bool × List Nat) := do
  let (w, r) ← readBytes 1 bs
  match w with
  | [0] => Except.ok (false, r)
  | [1] => Except.ok (true, r)
  | _ => Except.error PyErr.decodeError

/-- Borsh primitive `PubKey`: exactly 32 bytes, rendered as base58 text. -/
def readPubkey (bs : List Nat) : Except PyErr (String × List Nat) := do
  let (w, r) ← readBytes 32 bs
  Except.ok (base58Encode w, r)

/-- Borsh primitive `String`: a 4-byte little-endian length prefix
followed by that many UTF-8 bytes. -/
def readString (bs : List Nat) : Except PyErr (String × List Nat) := do
  let (len, r) ← readU32 bs
  let (w, r) ← readBytes len r
  let s ← utf8Decode w
  Except.ok (s, r)

/-- The variant-specific fields of a `ParsedInstruction`, one constructor
per dataclass in the `soltxs.parser.parsers` modules (the closed tag set of
the spec's data model).  `pumpSwap` and `raySwap` are the two variants whose
defining modules are absent from the snapshot; see their decoders below. -/
inductive Payload where
  | unknownInstr (instruction_index : Nat)
  | sysCreateAccount (funding_account new_account : Option String)
      (lamports space : Nat) (owner : String)
  | sysAssign (account : Option String) (owner : String)
  | sysTransfer (from_account to_account : Option String) (lamports : Nat)
  | sysCreateAccountWithSeed (funding_account new_account : Option String)
      (base seed : String) (lamports space : Nat) (owner : String)
  | sysAdvanceNonceAccount (nonce_account nonce_authority : Option String)
  | sysWithdrawNonceAccount (nonce_account destination_account nonce_authority : Option String)
      (lamports : Nat)
  | sysAuthorizeNonceAccount (nonce_account nonce_authority : Option String)
      (new_authority : String)
  | sysAllocate (account : Option String) (space : Nat)
  | sysAllocateWithSeed (account : Option String) (base seed : String)
      (space : Nat) (owner : String)
  | sysTransferWithSeed (source_account destination_account : Option String)
      (lamports : Nat) (seed owner : String)
  | cbSetComputeUnitLimit (compute_unit_limit : Nat)
  | cbSetComputeUnitPrice (micro_lamports : Nat)
  | tokInitializeMint (decimals : Nat) (mint_authority : String)
      (freeze_authority : Option String)
  | tokInitializeAccount (account mint owner rent_sysvar : String)
  | tokInitializeMultisig (m : Nat) (signers : List String)
  | tokTransfer (from_account «to» : String) (amount : Nat)
  | tokApprove (source delegate : String) (amount : Nat)
  | tokRevoke (source : String)
  | tokSetAuthority (account : String) (authority_type : Nat)
      (new_authority : Option String)
  | tokMintTo (mint destination : String) (amount : Nat)
  | tokBurn (account mint : String) (amount : Nat)
  | tokCloseAccount (account destination authority : String)
  | tokFreezeAccount (account mint freeze_authority : String)
  | tokThawAccount (account mint freeze_authority : String)
  | tokTransferChecked (from_account mint «to» : String) (amount decimals : Nat)
  | tokApproveChecked (source delegate : String) (amount decimals : Nat)
  | tokMintToChecked (mint destination : String) (amount decimals : Nat)
  | tokBurnChecked (account mint : String) (amount decimals : Nat)
  | tokUnknown
  | pumpCreate (who mint mint_authority bonding_curve associated_bonding_curve
      mpl_token_metadata metadata : Option String) (name symbol uri : String)
  | pumpBuy (who from_token : String) (from_token_decimals : Nat)
      (to_token : String) (to_token_decimals : Nat)
      (from_token_amount to_token_amount : Nat)
  | pumpSell (who from_token : String) (from_token_decimals : Nat)
      (to_token : String) (to_token_decimals : Nat)
      (from_token_amount to_token_amount : Nat)
  | pumpSwap (mint : String) (sol_amount token_amount : Nat) (is_buy : Bool)
      (user : String) (timestamp : Int)
      (virtual_sol_reserves virtual_token_reserves : Nat)
  | raySwap (who from_token : String) (from_token_amount from_token_decimals : Nat)
      (to_token : String) (to_token_amount to_token_decimals : Nat)
      (minimum_amount_out : Nat)
deriving DecidableEq, Repr

/-- Embeds `soltxs.parser.models.ParsedInstruction`: the base fields shared
by every parsed instruction dataclass, paired with the variant-specific
payload of the concrete subclass. -/
structure ParsedInstruction where
  program_id : String
  program_name : String
  instruction_name : String
  payload : Payload
deriving DecidableEq, Repr

/-- Discriminator keys of the per-program dispatch dictionaries: System,
Compute Budget and Token keys are integers, PumpFun (and AMM) keys are
8-byte slices, and the `UnknownParser` keys everything on Python `True`. -/
inductive Disc where
  | num (n : Nat)
  | bytes (bs : List Nat)
  | tt
deriving DecidableEq, Repr

/-- Decode functions stored in a dispatch table: transaction, instruction
index and decoded instruction bytes to one parsed instruction. -/
abbrev ProcessFn := Transaction → Nat → List Nat → Except PyErr ParsedInstruction

/-- Association-list lookup for a dispatch table (the embedding of the
Python dict lookup `desc_map.get(discriminator)`). -/
def findFn (d : Disc) : List (Disc × ProcessFn) → Option ProcessFn
  | [] => none
  | (k, f) :: rest => if d = k then some f else findFn d rest

/-- Embeds a `soltxs.parser.models.Program` parser object: program id and
name, discriminator extraction function, dispatch table and the table's
optional `"default"` entry (the source stores the default under the string
key `"default"` of the same dict; integer and bytes keys never collide
with it, so it is split out as its own field here). -/
structure Program where
  program_id : String
  program_name : String
  desc : List Nat → Except PyErr Disc
  desc_map : List (Disc × ProcessFn)
  dflt : Option ProcessFn

/-- Fetch `tx.message.instructions[idx]` (Python raises `IndexError` when
the index is out of range). -/
def getInstr (tx : Transaction) (idx : Nat) : Except PyErr Instruction :=
  match tx.message.instructions.get? idx with
  | some i => Except.ok i
  | none => Except.error PyErr.indexError

/-- Fetch `tx.all_accounts[i]` (Python raises `IndexError` when the index
is out of range). -/
def resolveAccount (tx : Transaction) (i : Nat) : Except PyErr String :=
  match tx.all_accounts.get? i with
  | some a => Except.ok a
  | none => Except.error PyErr.indexError

/-- Embeds the guarded positional account pattern
`tx.all_accounts[accounts[i]] if len(accounts) > i else None`: a missing
position yields `none`, a present position resolves through the unified
account list (and an out-of-range account index is an `IndexError`). -/
def optAccount (tx : Transaction) (accounts : List Nat) (i : Nat) :
    Except PyErr (Option String) :=
  match accounts.get? i with
  | none => Except.ok none
  | some a => (resolveAccount tx a).map some

/-- Embeds `tx.all_accounts[accounts[i]]` with no length guard (Python
raises `IndexError` when position `i` is missing or its index is out of
range), as used by the token program processors. -/
def reqAccount (tx : Transaction) (accounts : List Nat) (i : Nat) :
    Except PyErr String :=
  match accounts.get? i with
  | none => Except.error PyErr.indexError
  | some a => resolveAccount tx a

/-- Borsh schema `CreateAccountData`: 4 bytes of padding (the
discriminator), then `lamports : U64`, `space : U64`, `owner : PubKey`. -/
structure CreateAccountData where
  lamports : Nat
  space : Nat
  owner : String
deriving DecidableEq, Repr

/-- Sequential decoder for `CreateAccountData`. -/
def CreateAccountData.decode (bs : List Nat) : Except PyErr CreateAccountData := do
  let (_, r) ← readBytes 4 bs
  let (lamports, r) ← readU64 r
  let (space, r) ← readU64 r
  let (owner, _) ← readPubkey r
  Except.ok ⟨lamports, space, owner⟩

/-- Borsh schema `AssignData`: 4 bytes of padding, then `owner : PubKey`. -/
structure AssignData where
  owner : String
deriving DecidableEq, Repr

/-- Sequential decoder for `AssignData`. -/
def AssignData.decode (bs : List Nat) : Except PyErr AssignData := do
  let (_, r) ← readBytes 4 bs
  let (owner, _) ← readPubkey r
  Except.ok ⟨owner⟩

/-- Borsh schema `TransferData`: 4 bytes of padding (the discriminator),
then `lamports : U64`. -/
structure TransferData where
  lamports : Nat
deriving DecidableEq, Repr

/-- Sequential decoder for `TransferData`. -/
def TransferData.decode (bs : List Nat) : Except PyErr TransferData := do
  let (_, r) ← readBytes 4 bs
  let (lamports, _) ← readU64 r
  Except.ok ⟨lamports⟩

/-- Borsh schema `CreateAccountWithSeedData`: padding, `base : PubKey`,
`seed : String`, `lamports : U64`, `space : U64`, `owner : PubKey`. -/
structure CreateAccountWithSeedData where
  base : String
  seed : String
  lamports : Nat
  space : Nat
  owner : String
deriving DecidableEq, Repr

/-- Sequential decoder for `CreateAccountWithSeedData`. -/
def CreateAccountWithSeedData.decode (bs : List Nat) :
    Except PyErr CreateAccountWithSeedData := do
  let (_, r) ← readBytes 4 bs
  let (base, r) ← readPubkey r
  let (seed, r) ← readString r
  let (lamports, r) ← readU64 r
  let (space, r) ← readU64 r
  let (owner, _) ← readPubkey r
  Except.ok ⟨base, seed, lamports, space, owner⟩

/-- Borsh schema `WithdrawNonceAccountData`: padding, `lamports : U64`. -/
structure WithdrawNonceAccountData where
  lamports : Nat
deriving DecidableEq, Repr

/-- Sequential decoder for `WithdrawNonceAccountData`. -/
def WithdrawNonceAccountData.decode (bs : List Nat) :
    Except PyErr WithdrawNonceAccountData := do
  let (_, r) ← readBytes 4 bs
  let (lamports, _) ← readU64 r
  Except.ok ⟨lamports⟩

/-- Borsh schema `AuthorizeNonceAccountData`: padding, `new_authority :
PubKey`. -/
structure AuthorizeNonceAccountData where
  new_authority : String
deriving DecidableEq, Repr

/-- Sequential decoder for `AuthorizeNonceAccountData`. -/
def AuthorizeNonceAccountData.decode (bs : List Nat) :
    Except PyErr AuthorizeNonceAccountData := do
  let (_, r) ← readBytes 4 bs
  let (new_authority, _) ← readPubkey r
  Except.ok ⟨new_authority⟩

/-- Borsh schema `AllocateData`: padding, `space : U64`. -/
structure AllocateData where
  space : Nat
deriving DecidableEq, Repr

/-- Sequential decoder for `AllocateData`. -/
def AllocateData.decode (bs : List Nat) : Except PyErr AllocateData := do
  let (_, r) ← readBytes 4 bs
  let (space, _) ← readU64 r
  Except.ok ⟨space⟩

/-- Borsh schema `AllocateWithSeedData`: padding, `base : PubKey`,
`seed : String`, `space : U64`, `owner : PubKey`. -/
structure AllocateWithSeedData where
  base : String
  seed : String
  space : Nat
  owner : String
deriving DecidableEq, Repr

/-- Sequential decoder for `AllocateWithSeedData`. -/
def AllocateWithSeedData.decode (bs : List Nat) :
    Except PyErr AllocateWithSeedData := do
  let (_, r) ← readBytes 4 bs
  let (base, r) ← readPubkey r
  let (seed, r) ← readString r
  let (space, r) ← readU64 r
  let (owner, _) ← readPubkey r
  Except.ok ⟨base, seed, space, owner⟩

/-- Borsh schema `TransferWithSeedData`: padding, `lamports : U64`,
`seed : String`, `owner : PubKey`. -/
structure TransferWithSeedData where
  lamports : Nat
  seed : String
  owner : String
deriving DecidableEq, Repr

/-- Sequential decoder for `TransferWithSeedData`. -/
def TransferWithSeedData.decode (bs : List Nat) :
    Except PyErr TransferWithSeedData := do
  let (_, r) ← readBytes 4 bs
  let (lamports, r) ← readU64 r
  let (seed, r) ← readString r
  let (owner, _) ← readPubkey r
  Except.ok ⟨lamports, seed, owner⟩

/-- The fixed System Program id. -/
def systemProgramId : String := "11111111111111111111111111111111"

/-- Embeds `_SystemProgramParser.process_CreateAccount`. -/
def process_CreateAccount : ProcessFn := fun tx instruction_index decoded_data => do
  let instr ← getInstr tx instruction_index
  let accounts := instr.accounts
  let data ← CreateAccountData.decode decoded_data
  let funding_account ← optAccount tx accounts 0
  let new_account ← optAccount tx accounts 1
  Except.ok ⟨systemProgramId, "System Program", "CreateAccount",
    Payload.sysCreateAccount funding_account new_account data.lamports data.space data.owner⟩

/-- Embeds `_SystemProgramParser.process_Assign`. -/
def process_Assign : ProcessFn := fun tx instruction_index decoded_data => do
  let instr ← getInstr tx instruction_index
  let accounts := instr.accounts
  let data ← AssignData.decode decoded_data
  let account ← optAccount tx accounts 0
  Except.ok ⟨systemProgramId, "System Program", "Assign",
    Payload.sysAssign account data.owner⟩

/-- Embeds `_SystemProgramParser.process_Transfer`: positional accounts
`[from, to]` (each `None` when absent) and the borsh-decoded lamports. -/
def process_Transfer : ProcessFn := fun tx instruction_index decoded_data => do
  let instr ← getInstr tx instruction_index
  let data ← TransferData.decode decoded_data
  let accounts := instr.accounts
  let from_account ← optAccount tx accounts 0
  let to_account ← optAccount tx accounts 1
  Except.ok ⟨systemProgramId, "System Program", "Transfer",
    Payload.sysTransfer from_account to_account data.lamports⟩

/-- Embeds `_SystemProgramParser.process_CreateAccountWithSeed`. -/
def process_CreateAccountWithSeed : ProcessFn := fun tx instruction_index decoded_data => do
  let instr ← getInstr tx instruction_index
  let accounts := instr.accounts
  let data ← CreateAccountWithSeedData.decode decoded_data
  let funding_account ← optAccount tx accounts 0
  let new_account ← optAccount tx accounts 1
  Except.ok ⟨systemProgramId, "System Program", "CreateAccountWithSeed",
    Payload.sysCreateAccountWithSeed funding_account new_account data.base data.seed
      data.lamports data.space data.owner⟩

/-- Embeds `_SystemProgramParser.process_AdvanceNonceAccount`. -/
def process_AdvanceNonceAccount : ProcessFn := fun tx instruction_index _decoded_data => do
  let instr ← getInstr tx instruction_index
  let accounts := instr.accounts
  let nonce_account ← optAccount tx accounts 0
  let nonce_authority ← optAccount tx accounts 1
  Except.ok ⟨systemProgramId, "System Program", "AdvanceNonceAccount",
    Payload.sysAdvanceNonceAccount nonce_account nonce_authority⟩

/-- Embeds `_SystemProgramParser.process_WithdrawNonceAccount`. -/
def process_WithdrawNonceAccount : ProcessFn := fun tx instruction_index decoded_data => do
  let instr ← getInstr tx instruction_index
  let accounts := instr.accounts
  let data ← WithdrawNonceAccountData.decode decoded_data
  let nonce_account ← optAccount tx accounts 0
  let destination_account ← optAccount tx accounts 1
  let nonce_authority ← optAccount tx accounts 2
  Except.ok ⟨systemProgramId, "System Program", "WithdrawNonceAccount",
    Payload.sysWithdrawNonceAccount nonce_account destination_account nonce_authority
      data.lamports⟩

/-- Embeds `_SystemProgramParser.process_AuthorizeNonceAccount`. -/
def process_AuthorizeNonceAccount : ProcessFn := fun tx instruction_index decoded_data => do
  let instr ← getInstr tx instruction_index
  let accounts := instr.accounts
  let data ← AuthorizeNonceAccountData.decode decoded_data
  let nonce_account ← optAccount tx accounts 0
  let nonce_authority ← optAccount tx accounts 1
  Except.ok ⟨systemProgramId, "System Program", "AuthorizeNonceAccount",
    Payload.sysAuthorizeNonceAccount nonce_account nonce_authority data.new_authority⟩

/-- Embeds `_SystemProgramParser.process_Allocate`. -/
def process_Allocate : ProcessFn := fun tx instruction_index decoded_data => do
  let instr ← getInstr tx instruction_index
  let accounts := instr.accounts
  let data ← AllocateData.decode decoded_data
  let account ← optAccount tx accounts 0
  Except.ok ⟨systemProgramId, "System Program", "Allocate",
    Payload.sysAllocate account data.space⟩

/-- Embeds `_SystemProgramParser.process_AllocateWithSeed`. -/
def process_AllocateWithSeed : ProcessFn := fun tx instruction_index decoded_data => do
  let instr ← getInstr tx instruction_index
  let accounts := instr.accounts
  let data ← AllocateWithSeedData.decode decoded_data
  let account ← optAccount tx accounts 0
  Except.ok ⟨systemProgramId, "System Program", "AllocateWithSeed",
    Payload.sysAllocateWithSeed account data.base data.seed data.space data.owner⟩

/-- Embeds `_SystemProgramParser.process_TransferWithSeed`: account 0 is
the source and account 2 the destination (the source comments that the
destination is expected at index 2); position 1, the base/seed-derivation
account, is never read. -/
def process_TransferWithSeed : ProcessFn := fun tx instruction_index decoded_data => do
  let instr ← getInstr tx instruction_index
  let accounts := instr.accounts
  let data ← TransferWithSeedData.decode decoded_data
  let source_account ← optAccount tx accounts 0
  let destination_account ← optAccount tx accounts 2
  Except.ok ⟨systemProgramId, "System Program", "TransferWithSeed",
    Payload.sysTransferWithSeed source_account destination_account data.lamports
      data.seed data.owner⟩

/-- Embeds `SystemProgramParser`: discriminator is the first 4 bytes read
as a little-endian `u32` (`int.from_bytes(d[0:4], "little")`, which like
the Python slice tolerates shorter data), dispatching variants 0-9. -/
def SystemProgramParser : Program where
  program_id := systemProgramId
  program_name := "System Program"
  desc := fun d => Except.ok (Disc.num (leBytes (d.take 4)))
  desc_map :=
    [(Disc.num 0, process_CreateAccount),
     (Disc.num 1, process_Assign),
     (Disc.num 2, process_Transfer),
     (Disc.num 3, process_CreateAccountWithSeed),
     (Disc.num 4, process_AdvanceNonceAccount),
     (Disc.num 5, process_WithdrawNonceAccount),
     (Disc.num 6, process_AuthorizeNonceAccount),
     (Disc.num 7, process_Allocate),
     (Disc.num 8, process_AllocateWithSeed),
     (Disc.num 9, process_TransferWithSeed)]
  dflt := none

/-- The fixed Compute Budget program id. -/
def computeBudgetId : String := "ComputeBudget111111111111111111111111111111"

/-- Embeds `_ComputeBudgetParser.process_SetComputeUnitLimit`: the limit is
`int.from_bytes(decoded_data[1:5], "little")` (the slice, like Python's,
silently tolerates shorter data). -/
def process_SetComputeUnitLimit : ProcessFn := fun _tx _instruction_index decoded_data =>
  Except.ok ⟨computeBudgetId, "ComputeBudget", "SetComputeUnitLimit",
    Payload.cbSetComputeUnitLimit (leBytes ((decoded_data.drop 1).take 4))⟩

/-- Embeds `_ComputeBudgetParser.process_SetComputeUnitPrice`: the price is
`int.from_bytes(decoded_data[1:9], "little")`. -/
def process_SetComputeUnitPrice : ProcessFn := fun _tx _instruction_index decoded_data =>
  Except.ok ⟨computeBudgetId, "ComputeBudget", "SetComputeUnitPrice",
    Payload.cbSetComputeUnitPrice (leBytes ((decoded_data.drop 1).take 8))⟩

/-- Extract the first byte of the instruction data (`lambda d: d[0]`,
raising `IndexError` on empty data), the discriminator rule shared by the
Compute Budget and Token programs. -/
def firstByteDesc (d : List Nat) : Except PyErr Disc :=
  match d with
  | [] => Except.error PyErr.indexError
  | b :: _ => Except.ok (Disc.num b)

/-- Embeds `ComputeBudgetParser`: first-byte discriminator, entries `2`
(SetComputeUnitLimit) and `3` (SetComputeUnitPrice), no default entry. -/
def ComputeBudgetParser : Program where
  program_id := computeBudgetId
  program_name := "ComputeBudget"
  desc := firstByteDesc
  desc_map :=
    [(Disc.num 2, process_SetComputeUnitLimit),
     (Disc.num 3, process_SetComputeUnitPrice)]
  dflt := none

/-- The fixed Token Program id. -/
def tokenProgramId : String := "TokenkegQfeZyiNwAJbNbGKPFXCWuBvf9Ss623VQ5DA"

/-- Embeds `tokenProgram.decode_u64` applied to a slice `d[a:a+len]`
(`int.from_bytes(b, "little")`; short slices silently yield smaller
values, exactly as in Python). -/
def sliceLE (d : List Nat) (a len : Nat) : Nat :=
  leBytes ((d.drop a).take len)

/-- Embeds `_TokenProgramParser.process_InitializeMint`: `decimals` is byte
1, the mint authority is the base58 text of bytes 2..34, byte 34 is the
option tag of the freeze authority (bytes 35..67 when the tag is 1); the
single-byte reads raise `IndexError` past the end, the slices do not. -/
def process_InitializeMint : ProcessFn := fun _tx _instruction_index decoded_data => do
  let decimals ←
    match decoded_data.get? 1 with
    | some b => Except.ok b
    | none => Except.error PyErr.indexError
  let mint_authority := base58Encode ((decoded_data.drop 2).take 32)
  let opt ←
    match decoded_data.get? 34 with
    | some b => Except.ok b
    | none => Except.error PyErr.indexError
  let freeze_authority :=
    if opt = 1 then some (base58Encode ((decoded_data.drop 35).take 32)) else none
  Except.ok ⟨tokenProgramId, "TokenProgram", "InitializeMint",
    Payload.tokInitializeMint decimals mint_authority freeze_authority⟩

/-- Embeds `_TokenProgramParser.process_InitializeAccount` (accounts 0-3,
required positions). -/
def process_InitializeAccount : ProcessFn := fun tx instruction_index _decoded_data => do
  let instr ← getInstr tx instruction_index
  let accounts := instr.accounts
  let account ← reqAccount tx accounts 0
  let mint ← reqAccount tx accounts 1
  let owner ← reqAccount tx accounts 2
  let rent_sysvar ← reqAccount tx accounts 3
  Except.ok ⟨tokenProgramId, "TokenProgram", "InitializeAccount",
    Payload.tokInitializeAccount account mint owner rent_sysvar⟩

/-- Embeds `_TokenProgramParser.process_InitializeMultisig`: `m` is byte 1
and every listed account index resolves to a signer address. -/
def process_InitializeMultisig : ProcessFn := fun tx instruction_index decoded_data => do
  let m ←
    match decoded_data.get? 1 with
    | some b => Except.ok b
    | none => Except.error PyErr.indexError
  let instr ← getInstr tx instruction_index
  let signers ← instr.accounts.mapM (resolveAccount tx)
  Except.ok ⟨tokenProgramId, "TokenProgram", "InitializeMultisig",
    Payload.tokInitializeMultisig m signers⟩

/-- Embeds `_TokenProgramParser.process_Transfer`: accounts 0/1 and an
8-byte little-endian amount at offset 1. -/
def process_TokTransfer : ProcessFn := fun tx instruction_index decoded_data => do
  let instr ← getInstr tx instruction_index
  let accounts := instr.accounts
  let amount := sliceLE decoded_data 1 8
  let from_account ← reqAccount tx accounts 0
  let toAcc ← reqAccount tx accounts 1
  Except.ok ⟨tokenProgramId, "TokenProgram", "Transfer",
    Payload.tokTransfer from_account toAcc amount⟩

/-- Embeds `_TokenProgramParser.process_Approve`. -/
def process_Approve : ProcessFn := fun tx instruction_index decoded_data => do
  let instr ← getInstr tx instruction_index
  let accounts := instr.accounts
  let amount := sliceLE decoded_data 1 8
  let source ← reqAccount tx accounts 0
  let delegate ← reqAccount tx accounts 1
  Except.ok ⟨tokenProgramId, "TokenProgram", "Approve",
    Payload.tokApprove source delegate amount⟩

/-- Embeds `_TokenProgramParser.process_Revoke`. -/
def process_Revoke : ProcessFn := fun tx instruction_index _decoded_data => do
  let instr ← getInstr tx instruction_index
  let source ← reqAccount tx instr.accounts 0
  Except.ok ⟨tokenProgramId, "TokenProgram", "Revoke", Payload.tokRevoke source⟩

/-- Embeds `_TokenProgramParser.process_SetAuthority`: authority type at
byte 1, option tag at byte 2, optional new authority at bytes 3..35. -/
def process_SetAuthority : ProcessFn := fun tx instruction_index decoded_data => do
  let authority_type ←
    match decoded_data.get? 1 with
    | some b => Except.ok b
    | none => Except.error PyErr.indexError
  let opt ←
    match decoded_data.get? 2 with
    | some b => Except.ok b
    | none => Except.error PyErr.indexError
  let new_authority :=
    if opt = 1 then some (base58Encode ((decoded_data.drop 3).take 32)) else none
  let instr ← getInstr tx instruction_index
  let account ← reqAccount tx instr.accounts 0
  Except.ok ⟨tokenProgramId, "TokenProgram", "SetAuthority",
    Payload.tokSetAuthority account authority_type new_authority⟩

/-- Embeds `_TokenProgramParser.process_MintTo`. -/
def process_MintTo : ProcessFn := fun tx instruction_index decoded_data => do
  let instr ← getInstr tx instruction_index
  let accounts := instr.accounts
  let amount := sliceLE decoded_data 1 8
  let mint ← reqAccount tx accounts 0
  let destination ← reqAccount tx accounts 1
  Except.ok ⟨tokenProgramId, "TokenProgram", "MintTo",
    Payload.tokMintTo mint destination amount⟩

/-- Embeds `_TokenProgramParser.process_Burn`. -/
def process_Burn : ProcessFn := fun tx instruction_index decoded_data => do
  let instr ← getInstr tx instruction_index
  let accounts := instr.accounts
  let amount := sliceLE decoded_data 1 8
  let account ← reqAccount tx accounts 0
  let mint ← reqAccount tx accounts 1
  Except.ok ⟨tokenProgramId, "TokenProgram", "Burn",
    Payload.tokBurn account mint amount⟩

/-- Embeds `_TokenProgramParser.process_CloseAccount`. -/
def process_CloseAccount : ProcessFn := fun tx instruction_index _decoded_data => do
  let instr ← getInstr tx instruction_index
  let accounts := instr.accounts
  let account ← reqAccount tx accounts 0
  let destination ← reqAccount tx accounts 1
  let authority ← reqAccount tx accounts 2
  Except.ok ⟨tokenProgramId, "TokenProgram", "CloseAccount",
    Payload.tokCloseAccount account destination authority⟩

/-- Embeds `_TokenProgramParser.process_FreezeAccount`. -/
def process_FreezeAccount : ProcessFn := fun tx instruction_index _decoded_data => do
  let instr ← getInstr tx instruction_index
  let accounts := instr.accounts
  let account ← reqAccount tx accounts 0
  let mint ← reqAccount tx accounts 1
  let freeze_authority ← reqAccount tx accounts 2
  Except.ok ⟨tokenProgramId, "TokenProgram", "FreezeAccount",
    Payload.tokFreezeAccount account mint freeze_authority⟩

/-- Embeds `_TokenProgramParser.process_ThawAccount`. -/
def process_ThawAccount : ProcessFn := fun tx instruction_index _decoded_data => do
  let instr ← getInstr tx instruction_index
  let accounts := instr.accounts
  let account ← reqAccount tx accounts 0
  let mint ← reqAccount tx accounts 1
  let freeze_authority ← reqAccount tx accounts 2
  Except.ok ⟨tokenProgramId, "TokenProgram", "ThawAccount",
    Payload.tokThawAccount account mint freeze_authority⟩

/-- Embeds `_TokenProgramParser.process_TransferChecked`: amount at bytes
1..9 and the trailing decimals byte at offset 9 (read as the slice
`decoded_data[9:10]`, so silently 0 when missing). -/
def process_TransferChecked : ProcessFn := fun tx instruction_index decoded_data => do
  let instr ← getInstr tx instruction_index
  let accounts := instr.accounts
  let amount := sliceLE decoded_data 1 8
  let decimals := sliceLE decoded_data 9 1
  let from_account ← reqAccount tx accounts 0
  let mint ← reqAccount tx accounts 1
  let toAcc ← reqAccount tx accounts 2
  Except.ok ⟨tokenProgramId, "TokenProgram", "TransferChecked",
    Payload.tokTransferChecked from_account mint toAcc amount decimals⟩

/-- Embeds `_TokenProgramParser.process_ApproveChecked`. -/
def process_ApproveChecked : ProcessFn := fun tx instruction_index decoded_data => do
  let instr ← getInstr tx instruction_index
  let accounts := instr.accounts
  let amount := sliceLE decoded_data 1 8
  let decimals := sliceLE decoded_data 9 1
  let source ← reqAccount tx accounts 0
  let delegate ← reqAccount tx accounts 1
  Except.ok ⟨tokenProgramId, "TokenProgram", "ApproveChecked",
    Payload.tokApproveChecked source delegate amount decimals⟩

/-- Embeds `_TokenProgramParser.process_MintToChecked`. -/
def process_MintToChecked : ProcessFn := fun tx instruction_index decoded_data => do
  let instr ← getInstr tx instruction_index
  let accounts := instr.accounts
  let amount := sliceLE decoded_data 1 8
  let decimals := sliceLE decoded_data 9 1
  let mint ← reqAccount tx accounts 0
  let destination ← reqAccount tx accounts 1
  Except.ok ⟨tokenProgramId, "TokenProgram", "MintToChecked",
    Payload.tokMintToChecked mint destination amount decimals⟩

/-- Embeds `_TokenProgramParser.process_BurnChecked`. -/
def process_BurnChecked : ProcessFn := fun tx instruction_index decoded_data => do
  let instr ← getInstr tx instruction_index
  let accounts := instr.accounts
  let amount := sliceLE decoded_data 1 8
  let decimals := sliceLE decoded_data 9 1
  let account ← reqAccount tx accounts 0
  let mint ← reqAccount tx accounts 1
  Except.ok ⟨tokenProgramId, "TokenProgram", "BurnChecked",
    Payload.tokBurnChecked account mint amount decimals⟩

/-- Embeds `_TokenProgramParser.process_Unknown`: the token program's
non-fatal fallback, producing the `Unknown`-named variant with no extra
fields. -/
def process_TokUnknown : ProcessFn := fun _tx _instruction_index _decoded_data =>
  Except.ok ⟨tokenProgramId, "TokenProgram", "Unknown", Payload.tokUnknown⟩

/-- Embeds `TokenProgramParser`: first-byte discriminator, entries 0-15,
and a `"default"` entry mapping every other first byte to the non-fatal
`Unknown` variant. -/
def TokenProgramParser : Program where
  program_id := tokenProgramId
  program_name := "TokenProgram"
  desc := firstByteDesc
  desc_map :=
    [(Disc.num 0, process_InitializeMint),
     (Disc.num 1, process_InitializeAccount),
     (Disc.num 2, process_InitializeMultisig),
     (Disc.num 3, process_TokTransfer),
     (Disc.num 4, process_Approve),
     (Disc.num 5, process_Revoke),
     (Disc.num 6, process_SetAuthority),
     (Disc.num 7, process_MintTo),
     (Disc.num 8, process_Burn),
     (Disc.num 9, process_CloseAccount),
     (Disc.num 10, process_FreezeAccount),
     (Disc.num 11, process_ThawAccount),
     (Disc.num 12, process_TransferChecked),
     (Disc.num 13, process_ApproveChecked),
     (Disc.num 14, process_MintToChecked),
     (Disc.num 15, process_BurnChecked)]
  dflt := some process_TokUnknown

/-- Embeds `UnknownParser.process_Unknown`: an `Unknown` record carrying
the raw instruction's position. -/
def process_Unknown (program_id : String) : ProcessFn :=
  fun _tx instruction_index _decoded_data =>
    Except.ok ⟨program_id, "Unknown", "Unknown", Payload.unknownInstr instruction_index⟩

/-- Embeds `UnknownParser(program_id)`: the fallback decoder whose
discriminator function is constantly Python `True`, so its single table
entry always matches and decoding always succeeds. -/
def UnknownParser (program_id : String) : Program where
  program_id := program_id
  program_name := "Unknown"
  desc := fun _ => Except.ok Disc.tt
  desc_map := [(Disc.tt, process_Unknown program_id)]
  dflt := none

/-- Dispatch on an already-base58-decoded data slice: extract the
discriminator, look it up in the dispatch table falling back to the
`"default"` entry, and raise `NotImplementedError` when neither exists —
the second half of `Program.route` in `soltxs.parser.models`. -/
def Program.routeDecoded (p : Program) (tx : Transaction) (instruction_index : Nat)
    (decoded_data : List Nat) : Except PyErr ParsedInstruction := do
  let discriminator ← p.desc decoded_data
  match (findFn discriminator p.desc_map).orElse (fun _ => p.dflt) with
  | some f => f tx instruction_index decoded_data
  | none => Except.error PyErr.notImplementedError

/-- Embeds `Program.route`: fetch the instruction, base58-decode its data
field (`instr.data or ""`), then dispatch on the discriminator. -/
def Program.route (p : Program) (tx : Transaction) (instruction_index : Nat) :
    Except PyErr ParsedInstruction := do
  let instr ← getInstr tx instruction_index
  let decoded_data ← base58Decode (instr.data.getD "")
  p.routeDecoded tx instruction_index decoded_data

/-- 32-bit truncation used throughout SHA-256. -/
def m32 (x : Nat) : Nat := x % 4294967296

/-- 32-bit right rotation. -/
def rotr32 (x n : Nat) : Nat := m32 ((x >>> n) + (x <<< (32 - n)))

/-- The SHA-256 round constants. -/
def sha256K : List Nat :=
  [1116352408, 1899447441, 3049323471, 3921009573, 961987163, 1508970993,
   2453635748, 2870763221, 3624381080, 310598401, 607225278, 1426881987,
   1925078388, 2162078206, 2614888103, 3248222580, 3835390401, 4022224774,
   264347078, 604807628, 770255983, 1249150122, 1555081692, 1996064986,
   2554220882, 2821834349, 2952996808, 3210313671, 3336571891, 3584528711,
   113926993, 338241895, 666307205, 773529912, 1294757372, 1396182291,
   1695183700, 1986661051, 2177026350, 2456956037, 2730485921, 2820302411,
   3259730800, 3345764771, 3516065817, 3600352804, 4094571909, 275423344,
   430227734, 506948616, 659060556, 883997877, 958139571, 1322822218,
   1537002063, 1747873779, 1955562222, 2024104815, 2227730452, 2361852424,
   2428436474, 2756734187, 3204031479, 3329325298]

/-- The SHA-256 initial hash value. -/
def sha256H0 : List Nat :=
  [1779033703, 3144134277, 1013904242, 2773480762, 1359893119, 2600822924,
   528734635, 1541459225]

/-- SHA-256 padding: append the `0x80` marker, zero bytes up to 56 mod 64,
then the 8-byte big-endian bit length. -/
def sha256Pad (msg : List Nat) : List Nat :=
  let L := msg.length
  let zeros := (119 - L % 64) % 64
  let bits := 8 * L
  msg ++ [128] ++ List.replicate zeros 0 ++
    [bits >>> 56 % 256, bits >>> 48 % 256, bits >>> 40 % 256, bits >>> 32 % 256,
     bits >>> 24 % 256, bits >>> 16 % 256, bits >>> 8 % 256, bits % 256]

/-- Split a byte list into chunks of `n` bytes (fuel-driven; the fuel is
the list length, always sufficient for positive `n`). -/
def chunkGo (n : Nat) : Nat → List Nat → List (List Nat)
  | _, [] => []
  | 0, _ :: _ => []
  | fuel + 1, bs => bs.take n :: chunkGo n fuel (bs.drop n)

/-- Extend the 16 message words of a block to the 64-entry schedule. -/
def sha256Schedule : Nat → List Nat → List Nat
  | 0, w => w
  | fuel + 1, w =>
    let n := w.length
    let w15 := w.getD (n - 15) 0
    let w2 := w.getD (n - 2) 0
    let s0 := (rotr32 w15 7) ^^^ (rotr32 w15 18) ^^^ (w15 >>> 3)
    let s1 := (rotr32 w2 17) ^^^ (rotr32 w2 19) ^^^ (w2 >>> 10)
    sha256Schedule fuel (w ++ [m32 (w.getD (n - 16) 0 + s0 + w.getD (n - 7) 0 + s1)])

/-- One SHA-256 compression round. -/
def sha256Round (st : List Nat) (kw : Nat × Nat) : List Nat :=
  let a := st.getD 0 0
  let b := st.getD 1 0
  let c := st.getD 2 0
  let d := st.getD 3 0
  let e := st.getD 4 0
  let f := st.getD 5 0
  let g := st.getD 6 0
  let h := st.getD 7 0
  let s1 := (rotr32 e 6) ^^^ (rotr32 e 11) ^^^ (rotr32 e 25)
  let ch := (e &&& f) ^^^ ((4294967295 - e) &&& g)
  let t1 := m32 (h + s1 + ch + kw.1 + kw.2)
  let s0 := (rotr32 a 2) ^^^ (rotr32 a 13) ^^^ (rotr32 a 22)
  let maj := (a &&& b) ^^^ (a &&& c) ^^^ (b &&& c)
  let t2 := m32 (s0 + maj)
  [m32 (t1 + t2), a, b, c, m32 (d + t1), e, f, g]

/-- Process one 64-byte block into the running hash. -/
def sha256Block (hstate : List Nat) (block : List Nat) : List Nat :=
  let w0 := (chunkGo 4 block.length block).map beBytes
  let w := sha256Schedule 48 w0
  let st := (sha256K.zip w).foldl sha256Round hstate
  (hstate.zip st).map fun p => m32 (p.1 + p.2)

/-- SHA-256 of a byte list, as the 32-byte digest. -/
def sha256 (msg : List Nat) : List Nat :=
  let padded := sha256Pad msg
  let final := (chunkGo 64 padded.length padded).foldl sha256Block sha256H0
  final.flatMap fun wd => [wd >>> 24 % 256, wd >>> 16 % 256, wd >>> 8 % 256, wd % 256]

/-- Embeds the pumpfun module constant `WSOL_MINT`. -/
def WSOL_MINT : String := "So11111111111111111111111111111111111111112"

/-- Embeds the pumpfun module constant `SOL_DECIMALS`. -/
def SOL_DECIMALS : Nat := 9

/-- Borsh schema `SwapData`, the fixed self-describing event payload the
inner-instruction correlator decodes: mint pubkey, SOL amount `u64`, token
amount `u64`, is-buy flag, user pubkey, timestamp `i64` and two virtual
reserve `u64` fields. -/
structure SwapData where
  mint : String
  sol_amount : Nat
  token_amount : Nat
  is_buy : Bool
  user : String
  timestamp : Int
  virtual_sol_reserves : Nat
  virtual_token_reserves : Nat
deriving DecidableEq, Repr

/-- Sequential decoder for `SwapData`. -/
def SwapData.decode (bs : List Nat) : Except PyErr SwapData := do
  let (mint, r) ← readPubkey bs
  let (sol_amount, r) ← readU64 r
  let (token_amount, r) ← readU64 r
  let (is_buy, r) ← readBool r
  let (user, r) ← readPubkey r
  let (timestamp, r) ← readI64 r
  let (virtual_sol_reserves, r) ← readU64 r
  let (virtual_token_reserves, _) ← readU64 r
  Except.ok ⟨mint, sol_amount, token_amount, is_buy, user, timestamp,
    virtual_sol_reserves, virtual_token_reserves⟩

/-- Borsh schema `CreateData`: token name, symbol and metadata URI, each a
length-prefixed string. -/
structure CreateData where
  name : String
  symbol : String
  uri : String
deriving DecidableEq, Repr

/-- Sequential decoder for `CreateData`. -/
def CreateData.decode (bs : List Nat) : Except PyErr CreateData := do
  let (name, r) ← readString bs
  let (symbol, r) ← readString r
  let (uri, _) ← readString r
  Except.ok ⟨name, symbol, uri⟩

/-- The fixed PumpFun program id. -/
def pumpFunId : String := "6EF8rrecthR5Dkzon8Nwu78hRvfCKubJ14M5uBEwF6P"

/-- Embeds the pumpfun `calculate_discriminator` lambda: the first 8 bytes
of the SHA-256 digest of the UTF-8 encoded name. -/
def calculate_discriminator (s : String) : List Nat :=
  (sha256 (utf8Encode s)).take 8

/-- Embeds the inner-instruction gathering loop of
`_PumpFunParser._parse_swap`: every group whose `index` equals the
top-level index contributes its instructions, and a group with no `index`
key contributes unconditionally (the legacy fallback). -/
def gatherInner (tx : Transaction) (instruction_index : Nat) : List InnerInstr :=
  tx.meta.innerInstructions.foldl
    (fun acc group =>
      match group.index with
      | some i => if i = instruction_index then acc ++ group.instructions else acc
      | none => acc ++ group.instructions)
    []

/-- Embeds the decoding loop of `_PumpFunParser._parse_swap` over the
gathered inner instructions: skip those whose program id differs from the
top-level one, base58-decode the data (`.get("data", "")`), skip payloads
shorter than 16 bytes, and decode the rest after the 16-byte header. -/
def swapEvents (tx : Transaction) (top_prog_id : String) :
    List InnerInstr → Except PyErr (List SwapData)
  | [] => Except.ok []
  | i :: rest => do
    let sub_prog_id ← resolveAccount tx i.programIdIndex
    if sub_prog_id ≠ top_prog_id then swapEvents tx top_prog_id rest
    else do
      let raw_data ← base58Decode (i.data.getD "")
      if raw_data.length < 16 then swapEvents tx top_prog_id rest
      else do
        let parsed_obj ← SwapData.decode (raw_data.drop 16)
        let others ← swapEvents tx top_prog_id rest
        Except.ok (parsed_obj :: others)

/-- Embeds `_PumpFunParser._parse_swap`: resolve the top-level program id
through the unified account list, gather the matching inner instructions
and decode their event payloads in encounter order. -/
def parse_swap (tx : Transaction) (instruction_index : Nat) :
    Except PyErr (List SwapData) := do
  let top_instr ← getInstr tx instruction_index
  let top_prog_id ← resolveAccount tx top_instr.programIdIndex
  swapEvents tx top_prog_id (gatherInner tx instruction_index)

/-- Embeds `_PumpFunParser._get_token_decimals`: wrapped SOL has the fixed
9 decimals; otherwise the first pre- or post-transaction token balance
with the requested mint supplies them, and a mint found in neither list
raises `ValueError`. -/
def get_token_decimals (tx : Transaction) (mint : String) : Except PyErr Nat :=
  if mint = WSOL_MINT then Except.ok SOL_DECIMALS
  else
    match (tx.meta.preTokenBalances ++ tx.meta.postTokenBalances).find?
        (fun tb => tb.mint = mint) with
    | some tb => Except.ok tb.uiTokenAmount.decimals
    | none => Except.error PyErr.valueError

/-- Embeds `_PumpFunParser.parse_Buy`: the amounts come exclusively from
the first correlated inner event (`swap_list[0]`, `IndexError` when no
event decoded), with wrapped SOL as the from-token. -/
def parse_Buy : ProcessFn := fun tx instruction_index _decoded_data => do
  let swap_list ← parse_swap tx instruction_index
  let data ←
    match swap_list.head? with
    | some d => Except.ok d
    | none => Except.error PyErr.indexError
  let from_token := WSOL_MINT
  let to_token := data.mint
  let who := data.user
  let from_amount := data.sol_amount
  let to_amount := data.token_amount
  let from_decimals := SOL_DECIMALS
  let to_decimals ← get_token_decimals tx to_token
  Except.ok ⟨pumpFunId, "PumpFun", "Buy",
    Payload.pumpBuy who from_token from_decimals to_token to_decimals
      from_amount to_amount⟩

/-- Embeds `_PumpFunParser.parse_Sell`. -/
def parse_Sell : ProcessFn := fun tx instruction_index _decoded_data => do
  let swap_list ← parse_swap tx instruction_index
  let data ←
    match swap_list.head? with
    | some d => Except.ok d
    | none => Except.error PyErr.indexError
  let from_token := data.mint
  let to_token := WSOL_MINT
  let who := data.user
  let from_amount := data.token_amount
  let to_amount := data.sol_amount
  let from_decimals ← get_token_decimals tx from_token
  let to_decimals := SOL_DECIMALS
  Except.ok ⟨pumpFunId, "PumpFun", "Sell",
    Payload.pumpSell who from_token from_decimals to_token to_decimals
      from_amount to_amount⟩

/-- Embeds `_PumpFunParser.parse_Create`: the trailing borsh payload after
the 8-byte discriminator and fixed positional accounts (position 4 is
skipped; each position is optional). -/
def parse_Create : ProcessFn := fun tx instruction_index decoded_data => do
  let raw := decoded_data.drop 8
  let create_data ← CreateData.decode raw
  let instr ← getInstr tx instruction_index
  let who ← optAccount tx instr.accounts 7
  let mint ← optAccount tx instr.accounts 0
  let mint_authority ← optAccount tx instr.accounts 1
  let bonding_curve ← optAccount tx instr.accounts 2
  let associated_bonding_curve ← optAccount tx instr.accounts 3
  let mpl_token_metadata ← optAccount tx instr.accounts 5
  let metadata ← optAccount tx instr.accounts 6
  Except.ok ⟨pumpFunId, "PumpFun", "Create",
    Payload.pumpCreate who mint mint_authority bonding_curve associated_bonding_curve
      mpl_token_metadata metadata create_data.name create_data.symbol create_data.uri⟩

/-- Embeds `PumpFunParser`: the discriminator is the first 8 bytes of the
data (`d[:8]`), and the table maps the SHA-256-derived discriminators of
`"global:buy"`, `"global:sell"` and `"global:create"` to the three decode
functions. -/
def PumpFunParser : Program where
  program_id := pumpFunId
  program_name := "PumpFun"
  desc := fun d => Except.ok (Disc.bytes (d.take 8))
  desc_map :=
    [(Disc.bytes (calculate_discriminator "global:buy"), parse_Buy),
     (Disc.bytes (calculate_discriminator "global:sell"), parse_Sell),
     (Disc.bytes (calculate_discriminator "global:create"), parse_Create)]
  dflt := none

/-- Modelled from the spec: the `raydiumAMM` parser module is absent from
the snapshot (only its registry entry in `soltxs/parser/__init__.py`, the
Raydium resolver and the tests reference it).  The spec fixes a program id
constant for every decoder but does not print the AMM's value; the
mainnet Raydium AMM V4 address is used here. -/
def raydiumAMMId : String := "675kPX9MHTjS2zt1qfr1NYHuzeLXfQM9H24wFSUt1Mp8"

/-- Modelled from the spec: the AMM swap decode function (its module is
missing from the snapshot).  Following spec section 4.3, swap-style
instructions do not decode amounts from the outer instruction; the amounts
come from the first correlated inner event, the non-SOL leg's decimals
from the token balances, and the minimum-amount-out field from the outer
data after the 8-byte discriminator (the exact outer-data offset is not
pinned by the spec).  The record shape (who, from/to token, amounts,
decimals, minimum_amount_out) follows spec section 4.6 and the tests. -/
def parse_RaySwap : ProcessFn := fun tx instruction_index decoded_data => do
  let swap_list ← parse_swap tx instruction_index
  let data ←
    match swap_list.head? with
    | some d => Except.ok d
    | none => Except.error PyErr.indexError
  let minimum_amount_out := sliceLE decoded_data 16 8
  if data.is_buy then do
    let to_decimals ← get_token_decimals tx data.mint
    Except.ok ⟨raydiumAMMId, "RaydiumAMM", "Swap",
      Payload.raySwap data.user WSOL_MINT data.sol_amount SOL_DECIMALS
        data.mint data.token_amount to_decimals minimum_amount_out⟩
  else do
    let from_decimals ← get_token_decimals tx data.mint
    Except.ok ⟨raydiumAMMId, "RaydiumAMM", "Swap",
      Payload.raySwap data.user data.mint data.token_amount from_decimals
        WSOL_MINT data.sol_amount SOL_DECIMALS minimum_amount_out⟩

/-- Modelled from the spec: the `RaydiumAMMParser` registry entry (its
module is missing from the snapshot).  Spec section 4.3: AMM
discriminators are the first 8 bytes of the SHA-256 digest of
`"global:<lowercase_instruction_name>"`; the only instruction the tests
exercise is `Swap`, and an unrecognized discriminator is fatal
(System/Compute Budget style: no default entry). -/
def RaydiumAMMParser : Program where
  program_id := raydiumAMMId
  program_name := "RaydiumAMM"
  desc := fun d => Except.ok (Disc.bytes (d.take 8))
  desc_map := [(Disc.bytes (calculate_discriminator "global:swap"), parse_RaySwap)]
  dflt := none

/-- Embeds `soltxs.parser.id_to_handler`: the decoder registry mapping each
supported program id to its parser object. -/
def id_to_handler : List (String × Program) :=
  [(systemProgramId, SystemProgramParser),
   (computeBudgetId, ComputeBudgetParser),
   (tokenProgramId, TokenProgramParser),
   (raydiumAMMId, RaydiumAMMParser),
   (pumpFunId, PumpFunParser)]

/-- Registry lookup, the embedding of `id_to_handler.get(program_id)`. -/
def lookupHandler (program_id : String) : Option Program :=
  (id_to_handler.find? (fun e => e.1 = program_id)).map Prod.snd

/-- One iteration of the `parse` loop in `soltxs/parser/__init__.py`:
resolve the instruction's program id through `tx.message.accountKeys` (the
static keys — note the source does not use `tx.all_accounts` here), pick
the registered handler or an `UnknownParser`, and route. -/
def routeOne (tx : Transaction) (idx : Nat) : Except PyErr ParsedInstruction := do
  let instruction ← getInstr tx idx
  let program_id ←
    match tx.message.accountKeys.get? instruction.programIdIndex with
    | some p => Except.ok p
    | none => Except.error PyErr.indexError
  let router := (lookupHandler program_id).getD (UnknownParser program_id)
  router.route tx idx

/-- The `parse` loop over a list of instruction indices, accumulating the
parsed instructions in input order. -/
def parseGo (tx : Transaction) : List Nat → Except PyErr (List ParsedInstruction)
  | [] => Except.ok []
  | i :: rest => do
    let action ← routeOne tx i
    let others ← parseGo tx rest
    Except.ok (action :: others)

/-- Embeds `soltxs.parser.parse` restricted to the decoding core: the
ordered list of parsed instructions, one per raw instruction (the addon
enrichment and the `ParsedTransaction` wrapper are outside the specified
core and carry no decoding logic). -/
def parse (tx : Transaction) : Except PyErr (List ParsedInstruction) :=
  parseGo tx (List.range tx.message.instructions.length)

/-- Embeds `soltxs.resolver.models.Resolve` and its concrete dataclasses:
the closed set of canonical actions (`PumpFun`, `Raydium`, `Unknown`); the
float-valued amount fields are modelled as exact rationals. -/
inductive Resolve where
  | pumpFun (type who from_token : String) (from_amount : Rat)
      (to_token : String) (to_amount : Rat)
  | raydium (type who from_token : String) (from_amount : Rat)
      (to_token : String) (to_amount : Rat) (minimum_amount_out : Rat)
  | unknownResolve
deriving DecidableEq, Repr

/-- Embeds the resolver constant `LAMPORTS_PER_SOL` (`1e9`). -/
def LAMPORTS_PER_SOL : Rat := 1000000000

/-- Embeds the `isinstance(i, Swap)` filter of the PumpFun resolver: the
PumpFun `Swap` parsed-instruction variant (see `Payload.pumpSwap`). -/
def isPumpFunSwap (i : ParsedInstruction) : Bool :=
  match i.payload with
  | Payload.pumpSwap .. => true
  | _ => false

/-- Embeds `_PumpFunResolver.resolve`, which consumes the PumpFun `Swap`
parsed instruction.  The `Swap` dataclass itself is modelled from the
spec: the module variant defining it is absent from the snapshot (the
resolver imports it from `soltxs.parser.parsers.pumpfun`, and the tests
require fields `is_buy`, `sol_amount`, `token_amount`, `mint`, `user`
matching the spec section 4.4 event schema).  Exactly one `Swap`
instruction resolves; a buy converts the SOL leg by `1e9` and keeps raw
token units on the other leg, a sell mirrors this. -/
def PumpFunResolver_resolve (instructions : List ParsedInstruction) : Option Resolve :=
  match instructions.filter isPumpFunSwap with
  | [instr] =>
    match instr.payload with
    | Payload.pumpSwap mint sol_amount token_amount is_buy user _ _ _ =>
      if is_buy then
        some (Resolve.pumpFun "buy" user WSOL_MINT
          ((sol_amount : Rat) / LAMPORTS_PER_SOL) mint (token_amount : Rat))
      else
        some (Resolve.pumpFun "sell" user mint (token_amount : Rat) WSOL_MINT
          ((sol_amount : Rat) / LAMPORTS_PER_SOL))
    | _ => none
  | _ => none

/-- Embeds the raydium resolver constant `SOL_MINT`. -/
def SOL_MINT : String := "11111111111111111111111111111111"

/-- Embeds the `isinstance(i, parser.parsers.raydiumAMM.Swap)` filter of
the Raydium resolver (see `Payload.raySwap`). -/
def isRaySwap (i : ParsedInstruction) : Bool :=
  match i.payload with
  | Payload.raySwap .. => true
  | _ => false

/-- Embeds `_RaydiumResolver.resolve`: exactly one Raydium `Swap`
instruction resolves; the action type is `buy`/`sell`/`swap` according to
which side carries the wrapped or native SOL mint, the SOL-side legs are
divided by `1e9` and the other legs by `10 ** decimals` (including the
minimum-amount-out field, which follows the to-side). -/
def RaydiumResolver_resolve (instructions : List ParsedInstruction) : Option Resolve :=
  match instructions.filter isRaySwap with
  | [instr] =>
    match instr.payload with
    | Payload.raySwap who from_token from_token_amount from_token_decimals
        to_token to_token_amount to_token_decimals minimum_amount_out =>
      let raydium_type :=
        if from_token = WSOL_MINT ∨ from_token = SOL_MINT then "buy"
        else if to_token = WSOL_MINT ∨ to_token = SOL_MINT then "sell"
        else "swap"
      let resolved_from_amount :=
        if from_token = WSOL_MINT ∨ from_token = SOL_MINT then
          (from_token_amount : Rat) / LAMPORTS_PER_SOL
        else (from_token_amount : Rat) / (10 : Rat) ^ from_token_decimals
      let resolved_to_amount :=
        if to_token = WSOL_MINT ∨ to_token = SOL_MINT then
          (to_token_amount : Rat) / LAMPORTS_PER_SOL
        else (to_token_amount : Rat) / (10 : Rat) ^ to_token_decimals
      let resolved_minimum_amount_out :=
        if to_token = WSOL_MINT ∨ to_token = SOL_MINT then
          (minimum_amount_out : Rat) / LAMPORTS_PER_SOL
        else (minimum_amount_out : Rat) / (10 : Rat) ^ to_token_decimals
      some (Resolve.raydium raydium_type who from_token resolved_from_amount
        to_token resolved_to_amount resolved_minimum_amount_out)
    | _ => none
  | _ => none

/-- Embeds `soltxs.resolver.resolve` on the parsed instruction list (the
source reads the list out of the parsed-transaction value and touches
nothing else of it): try the PumpFun rule, then the Raydium rule, each
either producing the final canonical action or declining; fall back to the
always-succeeding Unknown resolver. -/
def resolve (instructions : List ParsedInstruction) : Resolve :=
  match PumpFunResolver_resolve instructions with
  | some result => result
  | none =>
    match RaydiumResolver_resolve instructions with
    | some result => result
    | none => Resolve.unknownResolve

/-- Metadata builder for concrete test transactions (all fields the
decoding core never reads are zeroed). -/
def mkMeta (groups : List InnerGroup) (pre post : List TokenBalance) : Meta :=
  ⟨0, [], [], pre, post, groups, [], none, none, none⟩

/-- Transaction builder for concrete test transactions. -/
def mkTx (keys w r : List String) (instrs : List Instruction) (m : Meta) : Transaction :=
  ⟨0, none, [], ⟨keys, "", instrs, []⟩, m, ⟨w, r⟩⟩

/-- C3: the unified account list is the concatenation of the static keys
with the loaded writable and readonly addresses, in that order; indices in
the writable band resolve into the writable list, indices past it resolve
into the readonly list, and no index at or beyond the static length ever
resolves to a static-key position. -/
theorem C3_unified_account_list :
    (∀ tx : Transaction, tx.all_accounts =
      tx.message.accountKeys ++ tx.loadedAddresses.writable ++ tx.loadedAddresses.readonly)
    ∧ (∀ (tx : Transaction) (i : Nat),
        tx.message.accountKeys.length ≤ i →
        i < tx.message.accountKeys.length + tx.loadedAddresses.writable.length →
        tx.all_accounts.get? i =
          tx.loadedAddresses.writable.get? (i - tx.message.accountKeys.length))
    ∧ (∀ (tx : Transaction) (i : Nat),
        tx.message.accountKeys.length + tx.loadedAddresses.writable.length ≤ i →
        tx.all_accounts.get? i =
          tx.loadedAddresses.readonly.get?
            (i - tx.message.accountKeys.length - tx.loadedAddresses.writable.length))
    ∧ (∀ (tx : Transaction) (i : Nat) (a : String),
        tx.message.accountKeys.length ≤ i →
        tx.all_accounts.get? i = some a →
        a ∈ tx.loadedAddresses.writable ++ tx.loadedAddresses.readonly) := by
  refine ⟨fun tx => rfl, ?_, ?_, ?_⟩
  · intro tx i h1 h2
    rw [Transaction.all_accounts, List.append_assoc, List.get?_append_right h1,
      List.get?_append (by omega)]
  · intro tx i h1
    rw [Transaction.all_accounts, List.append_assoc,
      List.get?_append_right (by omega), List.get?_append_right (by omega)]
  · intro tx i a h1 h2
    rw [Transaction.all_accounts, List.append_assoc, List.get?_append_right h1] at h2
    exact List.get?_mem h2

/-- Witness for C3 at a concrete transaction with one static key, one
loaded writable and one loaded readonly address. -/
theorem C3_witness :
    (mkTx ["A"] ["W"] ["R"] [] (mkMeta [] [] [])).all_accounts.get? 1 = some "W"
    ∧ (mkTx ["A"] ["W"] ["R"] [] (mkMeta [] [] [])).all_accounts.get? 2 = some "R"
    ∧ "W" ∈ ["W"] ++ ["R"] := by
  refine ⟨?_, ?_, ?_⟩
  · exact (C3_unified_account_list.2.1 (mkTx ["A"] ["W"] ["R"] [] (mkMeta [] [] []))
      1 (by decide) (by decide)).trans (by decide)
  · exact (C3_unified_account_list.2.2.1 (mkTx ["A"] ["W"] ["R"] [] (mkMeta [] [] []))
      2 (by decide)).trans (by decide)
  · exact C3_unified_account_list.2.2.2 (mkTx ["A"] ["W"] ["R"] [] (mkMeta [] [] []))
      1 "W" (by decide) (by decide)

/-- A discriminator that differs from every key of a dispatch table is
not found in it. -/
theorem findFn_eq_none (d : Disc) :
    ∀ l : List (Disc × ProcessFn), (∀ k ∈ l.map Prod.fst, d ≠ k) → findFn d l = none := by
  intro l
  induction l with
  | nil => intro _; rfl
  | cons e rest ih =>
    intro h
    obtain ⟨k, f⟩ := e
    have hne : d ≠ k := h k (by rw [List.map_cons]; exact List.mem_cons_self _ _)
    show (if d = k then some f else findFn d rest) = none
    rw [if_neg hne]
    exact ih fun k2 hk2 => h k2 (by rw [List.map_cons]; exact List.mem_cons_of_mem _ hk2)

/-- The key column of the token dispatch table. -/
theorem token_desc_map_keys :
    TokenProgramParser.desc_map.map Prod.fst =
      [Disc.num 0, Disc.num 1, Disc.num 2, Disc.num 3, Disc.num 4, Disc.num 5,
       Disc.num 6, Disc.num 7, Disc.num 8, Disc.num 9, Disc.num 10, Disc.num 11,
       Disc.num 12, Disc.num 13, Disc.num 14, Disc.num 15] := rfl

/-- A first byte above 15 matches no numbered entry of the token dispatch
table. -/
theorem findFn_token_none (b : Nat) (hb : 15 < b) :
    findFn (Disc.num b) TokenProgramParser.desc_map = none := by
  refine findFn_eq_none _ _ ?_
  intro k hk
  rw [token_desc_map_keys] at hk
  simp only [List.mem_cons, List.not_mem_nil, or_false] at hk
  rcases hk with rfl | rfl | rfl | rfl | rfl | rfl | rfl | rfl | rfl | rfl | rfl | rfl
    | rfl | rfl | rfl | rfl <;> simp only [ne_eq, Disc.num.injEq] <;> omega

/-- The key column of the System Program dispatch table. -/
theorem system_desc_map_keys :
    SystemProgramParser.desc_map.map Prod.fst =
      [Disc.num 0, Disc.num 1, Disc.num 2, Disc.num 3, Disc.num 4, Disc.num 5,
       Disc.num 6, Disc.num 7, Disc.num 8, Disc.num 9] := rfl

/-- A u32 discriminator above 9 matches no entry of the System Program
dispatch table. -/
theorem findFn_system_none (n : Nat) (hn : 9 < n) :
    findFn (Disc.num n) SystemProgramParser.desc_map = none := by
  refine findFn_eq_none _ _ ?_
  intro k hk
  rw [system_desc_map_keys] at hk
  simp only [List.mem_cons, List.not_mem_nil, or_false] at hk
  rcases hk with rfl | rfl | rfl | rfl | rfl | rfl | rfl | rfl | rfl | rfl <;>
    simp only [ne_eq, Disc.num.injEq] <;> omega

/-- The key column of the Compute Budget dispatch table. -/
theorem cb_desc_map_keys :
    ComputeBudgetParser.desc_map.map Prod.fst = [Disc.num 2, Disc.num 3] := rfl

/-- A first byte other than 2 or 3 matches no entry of the Compute Budget
dispatch table. -/
theorem findFn_cb_none (b : Nat) (h2 : b ≠ 2) (h3 : b ≠ 3) :
    findFn (Disc.num b) ComputeBudgetParser.desc_map = none := by
  refine findFn_eq_none _ _ ?_
  intro k hk
  rw [cb_desc_map_keys] at hk
  simp only [List.mem_cons, List.not_mem_nil, or_false] at hk
  rcases hk with rfl | rfl <;> simp only [ne_eq, Disc.num.injEq] <;> omega

/-- Dispatch shape of `routeDecoded` once the discriminator extraction
has succeeded. -/
theorem routeDecoded_dispatch (p : Program) (tx : Transaction) (idx : Nat)
    (d : List Nat) (disc : Disc) (hdesc : p.desc d = Except.ok disc) :
    p.routeDecoded tx idx d =
      match (findFn disc p.desc_map).orElse (fun _ => p.dflt) with
      | some f => f tx idx d
      | none => Except.error PyErr.notImplementedError := by
  unfold Program.routeDecoded
  rw [hdesc]
  rfl

/-- C2: the unrecognized-discriminator policy differs per program.  Every
Token Program instruction whose first data byte is outside 0-15 routes to
the non-fatal `Unknown` variant through the table's default entry, while a
System Program u32 discriminator outside 0-9 and a Compute Budget first
byte outside {2, 3} make routing fail for that instruction with the
unrecognized-discriminator (`NotImplementedError`) failure. -/
theorem C2_unrecognized_discriminator_policy :
    (∀ (tx : Transaction) (idx b : Nat) (rest : List Nat), 15 < b →
      TokenProgramParser.routeDecoded tx idx (b :: rest) =
        Except.ok ⟨tokenProgramId, "TokenProgram", "Unknown", Payload.tokUnknown⟩)
    ∧ (∀ (tx : Transaction) (idx : Nat) (d : List Nat), 9 < leBytes (d.take 4) →
      SystemProgramParser.routeDecoded tx idx d = Except.error PyErr.notImplementedError)
    ∧ (∀ (tx : Transaction) (idx b : Nat) (rest : List Nat), b ≠ 2 → b ≠ 3 →
      ComputeBudgetParser.routeDecoded tx idx (b :: rest) =
        Except.error PyErr.notImplementedError) := by
  refine ⟨?_, ?_, ?_⟩
  · intro tx idx b rest hb
    rw [routeDecoded_dispatch _ _ _ _ (Disc.num b) rfl, findFn_token_none b hb]
    rfl
  · intro tx idx d hd
    rw [routeDecoded_dispatch _ _ _ _ (Disc.num (leBytes (d.take 4))) rfl,
      findFn_system_none _ hd]
    rfl
  · intro tx idx b rest h2 h3
    rw [routeDecoded_dispatch _ _ _ _ (Disc.num b) rfl, findFn_cb_none b h2 h3]
    rfl

/-- Witness for C2 at first byte 16 (token), u32 discriminator 10
(system) and first byte 4 (compute budget). -/
theorem C2_witness :
    TokenProgramParser.routeDecoded (mkTx [] [] [] [] (mkMeta [] [] [])) 0 [16] =
      Except.ok ⟨tokenProgramId, "TokenProgram", "Unknown", Payload.tokUnknown⟩
    ∧ SystemProgramParser.routeDecoded (mkTx [] [] [] [] (mkMeta [] [] [])) 0 [10, 0, 0, 0] =
      Except.error PyErr.notImplementedError
    ∧ ComputeBudgetParser.routeDecoded (mkTx [] [] [] [] (mkMeta [] [] [])) 0 [4] =
      Except.error PyErr.notImplementedError :=
  ⟨C2_unrecognized_discriminator_policy.1 (mkTx [] [] [] [] (mkMeta [] [] [])) 0 16 []
      (by decide),
   C2_unrecognized_discriminator_policy.2.1 (mkTx [] [] [] [] (mkMeta [] [] []))
      0 [10, 0, 0, 0] (by decide),
   C2_unrecognized_discriminator_policy.2.2 (mkTx [] [] [] [] (mkMeta [] [] [])) 0 4 []
      (by decide) (by decide)⟩

/-- Computation rule for a successful bind in the `Except PyErr` monad. -/
theorem exbind_ok {α β : Type} (a : α) (f : α → Except PyErr β) :
    (Except.ok a >>= f) = f a := rfl

/-- Computation rule for a failing bind in the `Except PyErr` monad. -/
theorem exbind_err {α β : Type} (e : PyErr) (f : α → Except PyErr β) :
    ((Except.error e : Except PyErr α) >>= f) = Except.error e := rfl

/-- A present guarded positional account resolves through the unified
account list. -/
theorem optAccount_cons_head (tx : Transaction) (a : Nat) (rest : List Nat) (A : String)
    (hA : tx.all_accounts.get? a = some A) :
    optAccount tx (a :: rest) 0 = Except.ok (some A) := by
  show (resolveAccount tx a).map some = Except.ok (some A)
  unfold resolveAccount
  rw [hA]
  rfl

/-- A `readBytes` on a sufficiently long slice splits it. -/
theorem readBytes_ok (n : Nat) (bs : List Nat) (h : n ≤ bs.length) :
    readBytes n bs = Except.ok (bs.take n, bs.drop n) := by
  unfold readBytes
  rw [if_pos h]

/-- A `readU64` on at least 8 bytes yields their little-endian value. -/
theorem readU64_ok (bs : List Nat) (h : 8 ≤ bs.length) :
    readU64 bs = Except.ok (leBytes (bs.take 8), bs.drop 8) := by
  unfold readU64
  rw [readBytes_ok 8 bs h]
  rfl

/-- A missing guarded positional account is `none`. -/
theorem optAccount_out_of_range (tx : Transaction) (accounts : List Nat) (i : Nat)
    (h : accounts.length ≤ i) : optAccount tx accounts i = Except.ok none := by
  unfold optAccount
  rw [List.get?_eq_none.2 h]

/-- C4: System Program account roles are positional.  A `Transfer`
(discriminator 2, routed to `process_Transfer`) with accounts `[A, B]`
decodes to `Transfer(from_account=A, to_account=B, lamports)` where the
lamports are the little-endian u64 following the 4 discriminator bytes;
a `TransferWithSeed` (discriminator 9) reads account 0 as the source and
account 2 as the destination, with the middle account playing no role in
the produced record. -/
theorem C4_system_positional_roles :
    (∀ (tx : Transaction) (idx : Nat) (instr : Instruction) (a b : Nat) (A B : String)
        (d : List Nat) (lam : Nat),
      tx.message.instructions.get? idx = some instr →
      instr.accounts = [a, b] →
      tx.all_accounts.get? a = some A →
      tx.all_accounts.get? b = some B →
      TransferData.decode d = Except.ok ⟨lam⟩ →
      process_Transfer tx idx d = Except.ok
        ⟨systemProgramId, "System Program", "Transfer",
          Payload.sysTransfer (some A) (some B) lam⟩)
    ∧ (∀ d : List Nat, 12 ≤ d.length →
      TransferData.decode d = Except.ok ⟨leBytes ((d.drop 4).take 8)⟩)
    ∧ (∀ (tx : Transaction) (idx : Nat) (d : List Nat), leBytes (d.take 4) = 2 →
      SystemProgramParser.routeDecoded tx idx d = process_Transfer tx idx d)
    ∧ (∀ (tx : Transaction) (idx : Nat) (d : List Nat), leBytes (d.take 4) = 9 →
      SystemProgramParser.routeDecoded tx idx d = process_TransferWithSeed tx idx d)
    ∧ (∀ (tx : Transaction) (idx : Nat) (instr : Instruction) (a0 a1 a2 : Nat)
        (A C : String) (d : List Nat) (w : TransferWithSeedData),
      tx.message.instructions.get? idx = some instr →
      instr.accounts = [a0, a1, a2] →
      tx.all_accounts.get? a0 = some A →
      tx.all_accounts.get? a2 = some C →
      TransferWithSeedData.decode d = Except.ok w →
      process_TransferWithSeed tx idx d = Except.ok
        ⟨systemProgramId, "System Program", "TransferWithSeed",
          Payload.sysTransferWithSeed (some A) (some C) w.lamports w.seed w.owner⟩) := by
  refine ⟨?_, ?_, ?_, ?_, ?_⟩
  · intro tx idx instr a b A B d lam h1 h2 hA hB hD
    have hI : getInstr tx idx = Except.ok instr := by unfold getInstr; rw [h1]
    have hb1 : optAccount tx [a, b] 1 = Except.ok (some B) := by
      show (resolveAccount tx b).map some = Except.ok (some B)
      unfold resolveAccount
      rw [hB]
      rfl
    unfold process_Transfer
    simp only [hI, exbind_ok, hD, h2, optAccount_cons_head tx a [b] A hA, hb1]
  · intro d hd
    have h4 : readBytes 4 d = Except.ok (d.take 4, d.drop 4) := readBytes_ok 4 d (by omega)
    have h8 : readU64 (d.drop 4) =
        Except.ok (leBytes ((d.drop 4).take 8), (d.drop 4).drop 8) :=
      readU64_ok _ (by rw [List.length_drop]; omega)
    simp only [TransferData.decode, h4, h8, exbind_ok]
  · intro tx idx d hd
    rw [routeDecoded_dispatch _ _ _ _ (Disc.num (leBytes (d.take 4))) rfl, hd]
    rfl
  · intro tx idx d hd
    rw [routeDecoded_dispatch _ _ _ _ (Disc.num (leBytes (d.take 4))) rfl, hd]
    rfl
  · intro tx idx instr a0 a1 a2 A C d w h1 h2 hA hC hD
    have hI : getInstr tx idx = Except.ok instr := by unfold getInstr; rw [h1]
    have hc2 : optAccount tx [a0, a1, a2] 2 = Except.ok (some C) := by
      show (resolveAccount tx a2).map some = Except.ok (some C)
      unfold resolveAccount
      rw [hC]
      rfl
    unfold process_TransferWithSeed
    simp only [hI, exbind_ok, hD, h2, optAccount_cons_head tx a0 [a1, a2] A hA, hc2]

/-- Witness for C4: a transfer of 1000000 lamports from `A` to `B`, and a
seeded transfer of 5000 lamports whose middle account is out of range yet
irrelevant. -/
theorem C4_witness :
    process_Transfer
        (mkTx ["P", "A", "B"] [] [] [⟨0, none, [1, 2], none⟩] (mkMeta [] [] [])) 0
        [2, 0, 0, 0, 64, 66, 15, 0, 0, 0, 0, 0] =
      Except.ok ⟨systemProgramId, "System Program", "Transfer",
        Payload.sysTransfer (some "A") (some "B") 1000000⟩
    ∧ process_TransferWithSeed
        (mkTx ["P", "A", "B"] [] [] [⟨0, none, [1, 99, 2], none⟩] (mkMeta [] [] [])) 0
        ([9, 0, 0, 0, 136, 19, 0, 0, 0, 0, 0, 0, 2, 0, 0, 0, 97, 98] ++
          List.replicate 32 0) =
      Except.ok ⟨systemProgramId, "System Program", "TransferWithSeed",
        Payload.sysTransferWithSeed (some "A") (some "B") 5000 "ab"
          "11111111111111111111111111111111"⟩ := by
  constructor
  · exact C4_system_positional_roles.1
      (mkTx ["P", "A", "B"] [] [] [⟨0, none, [1, 2], none⟩] (mkMeta [] [] [])) 0
      ⟨0, none, [1, 2], none⟩ 1 2 "A" "B" _ 1000000 (by decide) rfl (by decide)
      (by decide) (by decide)
  · exact C4_system_positional_roles.2.2.2.2
      (mkTx ["P", "A", "B"] [] [] [⟨0, none, [1, 99, 2], none⟩] (mkMeta [] [] [])) 0
      ⟨0, none, [1, 99, 2], none⟩ 1 99 2 "A" "B" _
      ⟨5000, "ab", "11111111111111111111111111111111"⟩ (by decide) rfl (by decide)
      (by decide) (by decide)

/-- C9: a System Program instruction whose account list is shorter than
the positional roles require still decodes without failure — the missing
account fields come out as `None` while the numeric payload fields are
decoded as usual (`Transfer` with zero or one account, `TransferWithSeed`
with fewer than three). -/
theorem C9_short_account_lists :
    (∀ (tx : Transaction) (idx : Nat) (instr : Instruction) (d : List Nat) (lam : Nat),
      tx.message.instructions.get? idx = some instr →
      instr.accounts = [] →
      TransferData.decode d = Except.ok ⟨lam⟩ →
      process_Transfer tx idx d = Except.ok
        ⟨systemProgramId, "System Program", "Transfer",
          Payload.sysTransfer none none lam⟩)
    ∧ (∀ (tx : Transaction) (idx : Nat) (instr : Instruction) (a : Nat) (A : String)
        (d : List Nat) (lam : Nat),
      tx.message.instructions.get? idx = some instr →
      instr.accounts = [a] →
      tx.all_accounts.get? a = some A →
      TransferData.decode d = Except.ok ⟨lam⟩ →
      process_Transfer tx idx d = Except.ok
        ⟨systemProgramId, "System Program", "Transfer",
          Payload.sysTransfer (some A) none lam⟩)
    ∧ (∀ (tx : Transaction) (idx : Nat) (instr : Instruction) (a0 a1 : Nat) (A : String)
        (d : List Nat) (w : TransferWithSeedData),
      tx.message.instructions.get? idx = some instr →
      instr.accounts = [a0, a1] →
      tx.all_accounts.get? a0 = some A →
      TransferWithSeedData.decode d = Except.ok w →
      process_TransferWithSeed tx idx d = Except.ok
        ⟨systemProgramId, "System Program", "TransferWithSeed",
          Payload.sysTransferWithSeed (some A) none w.lamports w.seed w.owner⟩) := by
  refine ⟨?_, ?_, ?_⟩
  · intro tx idx instr d lam h1 h2 hD
    have hI : getInstr tx idx = Except.ok instr := by unfold getInstr; rw [h1]
    unfold process_Transfer
    simp only [hI, exbind_ok, hD, h2,
      optAccount_out_of_range tx [] 0 (by simp),
      optAccount_out_of_range tx [] 1 (by simp)]
  · intro tx idx instr a A d lam h1 h2 hA hD
    have hI : getInstr tx idx = Except.ok instr := by unfold getInstr; rw [h1]
    unfold process_Transfer
    simp only [hI, exbind_ok, hD, h2, optAccount_cons_head tx a [] A hA,
      optAccount_out_of_range tx [a] 1 (by simp)]
  · intro tx idx instr a0 a1 A d w h1 h2 hA hD
    have hI : getInstr tx idx = Except.ok instr := by unfold getInstr; rw [h1]
    unfold process_TransferWithSeed
    simp only [hI, exbind_ok, hD, h2, optAccount_cons_head tx a0 [a1] A hA,
      optAccount_out_of_range tx [a0, a1] 2 (by simp)]

/-- Witness for C9: a `Transfer` with no accounts, a `Transfer` with one
account and a `TransferWithSeed` with two accounts, all decoding. -/
theorem C9_witness :
    process_Transfer (mkTx ["P"] [] [] [⟨0, none, [], none⟩] (mkMeta [] [] [])) 0
        [2, 0, 0, 0, 7, 0, 0, 0, 0, 0, 0, 0] =
      Except.ok ⟨systemProgramId, "System Program", "Transfer",
        Payload.sysTransfer none none 7⟩
    ∧ process_Transfer (mkTx ["P", "A"] [] [] [⟨0, none, [1], none⟩] (mkMeta [] [] [])) 0
        [2, 0, 0, 0, 7, 0, 0, 0, 0, 0, 0, 0] =
      Except.ok ⟨systemProgramId, "System Program", "Transfer",
        Payload.sysTransfer (some "A") none 7⟩
    ∧ process_TransferWithSeed
        (mkTx ["P", "A"] [] [] [⟨0, none, [1, 0], none⟩] (mkMeta [] [] [])) 0
        ([9, 0, 0, 0, 136, 19, 0, 0, 0, 0, 0, 0, 2, 0, 0, 0, 97, 98] ++
          List.replicate 32 0) =
      Except.ok ⟨systemProgramId, "System Program", "TransferWithSeed",
        Payload.sysTransferWithSeed (some "A") none 5000 "ab"
          "11111111111111111111111111111111"⟩ :=
  ⟨C9_short_account_lists.1 (mkTx ["P"] [] [] [⟨0, none, [], none⟩] (mkMeta [] [] [])) 0
      ⟨0, none, [], none⟩ _ 7 (by decide) rfl (by decide),
   C9_short_account_lists.2.1
      (mkTx ["P", "A"] [] [] [⟨0, none, [1], none⟩] (mkMeta [] [] [])) 0
      ⟨0, none, [1], none⟩ 1 "A" _ 7 (by decide) rfl (by decide) (by decide),
   C9_short_account_lists.2.2
      (mkTx ["P", "A"] [] [] [⟨0, none, [1, 0], none⟩] (mkMeta [] [] [])) 0
      ⟨0, none, [1, 0], none⟩ 1 0 "A" _
      ⟨5000, "ab", "11111111111111111111111111111111"⟩ (by decide) rfl (by decide)
      (by decide)⟩

/-- C7: the PumpFun discriminator is the first 8 bytes of the instruction
data, and the dispatch table maps exactly the first 8 bytes of the SHA-256
digests of `"global:buy"`, `"global:sell"` and `"global:create"` to the
Buy, Sell and Create decode functions (no default entry); the extracted
discriminator, hence the chosen decode function, is a pure function of the
decoded bytes — two data slices sharing their first 8 bytes always
dispatch identically. -/
theorem C7_pumpfun_discriminators :
    (∀ d : List Nat, PumpFunParser.desc d = Except.ok (Disc.bytes (d.take 8)))
    ∧ PumpFunParser.desc_map.map Prod.fst =
        [Disc.bytes [102, 6, 61, 18, 1, 218, 235, 234],
         Disc.bytes [51, 230, 133, 164, 1, 127, 131, 173],
         Disc.bytes [24, 30, 200, 40, 5, 28, 7, 119]]
    ∧ calculate_discriminator "global:buy" = [102, 6, 61, 18, 1, 218, 235, 234]
    ∧ calculate_discriminator "global:sell" = [51, 230, 133, 164, 1, 127, 131, 173]
    ∧ calculate_discriminator "global:create" = [24, 30, 200, 40, 5, 28, 7, 119]
    ∧ findFn (Disc.bytes (calculate_discriminator "global:buy"))
        PumpFunParser.desc_map = some parse_Buy
    ∧ findFn (Disc.bytes (calculate_discriminator "global:sell"))
        PumpFunParser.desc_map = some parse_Sell
    ∧ findFn (Disc.bytes (calculate_discriminator "global:create"))
        PumpFunParser.desc_map = some parse_Create
    ∧ PumpFunParser.dflt = none
    ∧ (∀ d1 d2 : List Nat, d1.take 8 = d2.take 8 →
        PumpFunParser.desc d1 = PumpFunParser.desc d2) := by
  refine ⟨fun d => rfl, by decide, by decide, by decide, by decide, rfl, rfl, rfl, rfl, ?_⟩
  intro d1 d2 h
  show Except.ok (Disc.bytes (d1.take 8)) = Except.ok (Disc.bytes (d2.take 8))
  rw [h]

/-- Witness for C7: two data slices agreeing on their first 8 bytes
extract the same discriminator. -/
theorem C7_witness :
    PumpFunParser.desc [1, 2, 3, 4, 5, 6, 7, 8, 9] =
      PumpFunParser.desc [1, 2, 3, 4, 5, 6, 7, 8, 42] :=
  C7_pumpfun_discriminators.2.2.2.2.2.2.2.2.2
    [1, 2, 3, 4, 5, 6, 7, 8, 9] [1, 2, 3, 4, 5, 6, 7, 8, 42] (by decide)

/-- C5: a parsed-instruction list with exactly one PumpFun swap whose
is-buy flag is set resolves to the canonical buy action: who is the
event's user, the from-side is wrapped SOL with the SOL amount divided by
`10^9`, and the to-side is the event's mint with the raw token amount
unadjusted (the divisor constant is literally `10^9`). -/
theorem C5_pumpfun_buy_resolution :
    (∀ (instructions : List ParsedInstruction) (i : ParsedInstruction) (M : String)
        (S T : Nat) (U : String) (ts : Int) (vs vt : Nat),
      instructions.filter isPumpFunSwap = [i] →
      i.payload = Payload.pumpSwap M S T true U ts vs vt →
      PumpFunResolver_resolve instructions =
        some (Resolve.pumpFun "buy" U WSOL_MINT ((S : Rat) / LAMPORTS_PER_SOL) M (T : Rat))
      ∧ resolve instructions =
        Resolve.pumpFun "buy" U WSOL_MINT ((S : Rat) / LAMPORTS_PER_SOL) M (T : Rat))
    ∧ LAMPORTS_PER_SOL = (10 : Rat) ^ 9 := by
  refine ⟨?_, by decide⟩
  intro instructions i M S T U ts vs vt hf hp
  have hres : PumpFunResolver_resolve instructions =
      some (Resolve.pumpFun "buy" U WSOL_MINT ((S : Rat) / LAMPORTS_PER_SOL) M (T : Rat)) := by
    unfold PumpFunResolver_resolve
    rw [hf]
    show (match i.payload with
      | Payload.pumpSwap mint sol_amount token_amount is_buy user _ _ _ =>
        if is_buy then
          some (Resolve.pumpFun "buy" user WSOL_MINT
            ((sol_amount : Rat) / LAMPORTS_PER_SOL) mint (token_amount : Rat))
        else
          some (Resolve.pumpFun "sell" user mint (token_amount : Rat) WSOL_MINT
            ((sol_amount : Rat) / LAMPORTS_PER_SOL))
      | _ => none) = _
    rw [hp]
    rfl
  refine ⟨hres, ?_⟩
  unfold resolve
  rw [hres]

/-- Witness for C5: the spec scenario — one PumpFun swap event with
`is_buy` set, 2000000000 lamports and 1234 raw token units resolves to a
buy of 2.0 SOL worth. -/
theorem C5_witness :
    resolve [⟨pumpFunId, "PumpFun", "Swap",
        Payload.pumpSwap "M" 2000000000 1234 true "U" 0 0 0⟩] =
      Resolve.pumpFun "buy" "U" WSOL_MINT 2 "M" 1234 :=
  ((C5_pumpfun_buy_resolution.1
      [⟨pumpFunId, "PumpFun", "Swap", Payload.pumpSwap "M" 2000000000 1234 true "U" 0 0 0⟩]
      ⟨pumpFunId, "PumpFun", "Swap", Payload.pumpSwap "M" 2000000000 1234 true "U" 0 0 0⟩
      "M" 2000000000 1234 "U" 0 0 0 (by decide) rfl).2).trans
    (by simp only [Resolve.pumpFun.injEq, LAMPORTS_PER_SOL]; norm_num)

/-- C8: each resolver rule declines whenever the list does not contain
exactly one swap instruction of its kind (zero or several), and when every
rule declines, `resolve` still returns a value — the Unknown canonical
action — rather than an error. -/
theorem C8_resolver_exclusivity :
    (∀ instructions : List ParsedInstruction,
      (instructions.filter isPumpFunSwap).length ≠ 1 →
      PumpFunResolver_resolve instructions = none)
    ∧ (∀ instructions : List ParsedInstruction,
      (instructions.filter isRaySwap).length ≠ 1 →
      RaydiumResolver_resolve instructions = none)
    ∧ (∀ instructions : List ParsedInstruction,
      PumpFunResolver_resolve instructions = none →
      RaydiumResolver_resolve instructions = none →
      resolve instructions = Resolve.unknownResolve) := by
  refine ⟨?_, ?_, ?_⟩
  · intro instructions h
    unfold PumpFunResolver_resolve
    rcases hf : instructions.filter isPumpFunSwap with _ | ⟨x, _ | ⟨y, t⟩⟩
    · rfl
    · rw [hf] at h
      simp at h
    · rfl
  · intro instructions h
    unfold RaydiumResolver_resolve
    rcases hf : instructions.filter isRaySwap with _ | ⟨x, _ | ⟨y, t⟩⟩
    · rfl
    · rw [hf] at h
      simp at h
    · rfl
  · intro instructions h1 h2
    unfold resolve
    rw [h1, h2]

/-- Witness for C8: an empty instruction list makes both rules decline
(zero matches), a two-swap list makes each rule decline (ambiguity), and
the fallback resolves to Unknown. -/
theorem C8_witness :
    PumpFunResolver_resolve
        [⟨pumpFunId, "PumpFun", "Swap", Payload.pumpSwap "M" 5 6 true "U" 0 0 0⟩,
         ⟨pumpFunId, "PumpFun", "Swap", Payload.pumpSwap "M" 7 8 false "U" 0 0 0⟩] = none
    ∧ RaydiumResolver_resolve ([] : List ParsedInstruction) = none
    ∧ resolve ([] : List ParsedInstruction) = Resolve.unknownResolve :=
  ⟨C8_resolver_exclusivity.1
      [⟨pumpFunId, "PumpFun", "Swap", Payload.pumpSwap "M" 5 6 true "U" 0 0 0⟩,
       ⟨pumpFunId, "PumpFun", "Swap", Payload.pumpSwap "M" 7 8 false "U" 0 0 0⟩]
      (by decide),
   C8_resolver_exclusivity.2.1 [] (by decide),
   C8_resolver_exclusivity.2.2 []
     (C8_resolver_exclusivity.1 [] (by decide))
     (C8_resolver_exclusivity.2.1 [] (by decide))⟩

/-- A mint that is not wrapped SOL and appears in no token balance makes
the decimals lookup raise `ValueError`. -/
theorem getTokenDecimals_absent (tx : Transaction) (mint : String)
    (h1 : mint ≠ WSOL_MINT)
    (h2 : ∀ tb ∈ tx.meta.preTokenBalances ++ tx.meta.postTokenBalances, tb.mint ≠ mint) :
    get_token_decimals tx mint = Except.error PyErr.valueError := by
  unfold get_token_decimals
  rw [if_neg h1, List.find?_eq_none.2 (fun tb htb => by simpa using h2 tb htb)]

/-- C10: a PumpFun Buy requires the non-SOL mint's decimals to be
discoverable.  Wrapped SOL always yields the fixed 9; a mint found in
neither the pre- nor post-transaction token balances raises `ValueError`,
and `parse_Buy` propagates that failure instead of producing a record. -/
theorem C10_decimals_required :
    (∀ tx : Transaction, get_token_decimals tx WSOL_MINT = Except.ok 9)
    ∧ (∀ (tx : Transaction) (mint : String), mint ≠ WSOL_MINT →
      (∀ tb ∈ tx.meta.preTokenBalances ++ tx.meta.postTokenBalances, tb.mint ≠ mint) →
      get_token_decimals tx mint = Except.error PyErr.valueError)
    ∧ (∀ (tx : Transaction) (idx : Nat) (d : List Nat) (ev : SwapData)
        (rest : List SwapData),
      parse_swap tx idx = Except.ok (ev :: rest) →
      ev.mint ≠ WSOL_MINT →
      (∀ tb ∈ tx.meta.preTokenBalances ++ tx.meta.postTokenBalances, tb.mint ≠ ev.mint) →
      parse_Buy tx idx d = Except.error PyErr.valueError) := by
  refine ⟨?_, getTokenDecimals_absent, ?_⟩
  · intro tx
    unfold get_token_decimals
    rw [if_pos rfl]
    rfl
  · intro tx idx d ev rest hps h1 h2
    unfold parse_Buy
    simp only [hps, exbind_ok, List.head?, getTokenDecimals_absent tx ev.mint h1 h2,
      exbind_err]

/-- Witness for C10 at a transaction whose single inner instruction emits
a swap event whose mint appears in no token balance: the decimals lookup
and the whole Buy decode fail with `ValueError`, while wrapped SOL
resolves to 9 decimals. -/
theorem C10_witness :
    get_token_decimals
        (mkTx ["Pump"] [] [] [⟨0, none, [], none⟩]
          (mkMeta [⟨some 0, [⟨0, some "11111111111111111111111111111111111111111111111113Bt6PRsWj3q3r7GzVwdYKnthS5JHWZMnyMLtN7borY1C7PQCpi4FQ1opRU3nHCvoFEvM3SFWS2a95MdwCdcUNCcVBj5BDFAQebq", []⟩]⟩] [] []))
        WSOL_MINT = Except.ok 9
    ∧ parse_Buy
        (mkTx ["Pump"] [] [] [⟨0, none, [], none⟩]
          (mkMeta [⟨some 0, [⟨0, some "11111111111111111111111111111111111111111111111113Bt6PRsWj3q3r7GzVwdYKnthS5JHWZMnyMLtN7borY1C7PQCpi4FQ1opRU3nHCvoFEvM3SFWS2a95MdwCdcUNCcVBj5BDFAQebq", []⟩]⟩] [] []))
        0 [] = Except.error PyErr.valueError :=
  ⟨C10_decimals_required.1
      (mkTx ["Pump"] [] [] [⟨0, none, [], none⟩]
        (mkMeta [⟨some 0, [⟨0, some "11111111111111111111111111111111111111111111111113Bt6PRsWj3q3r7GzVwdYKnthS5JHWZMnyMLtN7borY1C7PQCpi4FQ1opRU3nHCvoFEvM3SFWS2a95MdwCdcUNCcVBj5BDFAQebq", []⟩]⟩] [] [])),
   C10_decimals_required.2.2
      (mkTx ["Pump"] [] [] [⟨0, none, [], none⟩]
        (mkMeta [⟨some 0, [⟨0, some "11111111111111111111111111111111111111111111111113Bt6PRsWj3q3r7GzVwdYKnthS5JHWZMnyMLtN7borY1C7PQCpi4FQ1opRU3nHCvoFEvM3SFWS2a95MdwCdcUNCcVBj5BDFAQebq", []⟩]⟩] [] []))
      0 []
      ⟨"11111111111111111111111111111111", 2000000000, 1234, true,
        "11111111111111111111111111111111", 0, 0, 0⟩ []
      (by decide) (by decide) (by intro tb htb; simp [mkTx, mkMeta] at htb)⟩

/-- A `readPubkey` on at least 32 bytes base58-renders them. -/
theorem readPubkey_ok (bs : List Nat) (h : 32 ≤ bs.length) :
    readPubkey bs = Except.ok (base58Encode (bs.take 32), bs.drop 32) := by
  unfold readPubkey
  rw [readBytes_ok 32 bs h]
  rfl

/-- A `readI64` on at least 8 bytes yields their signed value. -/
theorem readI64_ok (bs : List Nat) (h : 8 ≤ bs.length) :
    readI64 bs = Except.ok (leI64 (bs.take 8), bs.drop 8) := by
  unfold readI64
  rw [readBytes_ok 8 bs h]
  rfl

/-- A `readBool` on a nonempty slice whose first byte is 0 or 1 yields
that flag. -/
theorem readBool_ok (bs : List Nat) (h : 1 ≤ bs.length)
    (h01 : bs.getD 0 0 = 0 ∨ bs.getD 0 0 = 1) :
    readBool bs = Except.ok (bs.getD 0 0 == 1, bs.drop 1) := by
  rcases bs with _ | ⟨b, r⟩
  · simp at h
  · simp only [List.getD_cons_zero] at h01
    unfold readBool
    rw [readBytes_ok 1 (b :: r) h, exbind_ok]
    rcases h01 with rfl | rfl <;> rfl

/-- The `index`-matching filter of the inner-instruction gathered groups:
an explicit index must equal the top-level index, a missing index always
matches. -/
def groupMatches (instruction_index : Nat) (g : InnerGroup) : Bool :=
  match g.index with
  | some i => i == instruction_index
  | none => true

/-- The gathering loop is equivalent to filtering the groups on the
index-match predicate and concatenating their instruction lists, in
document order. -/
theorem gatherInner_go (instruction_index : Nat) :
    ∀ (l : List InnerGroup) (acc : List InnerInstr),
      l.foldl
        (fun acc group =>
          match group.index with
          | some i => if i = instruction_index then acc ++ group.instructions else acc
          | none => acc ++ group.instructions)
        acc =
      acc ++ (l.filter (groupMatches instruction_index)).flatMap (·.instructions) := by
  intro l
  induction l with
  | nil => intro acc; simp
  | cons g rest ih =>
    intro acc
    rcases hg : g.index with _ | i
    · simp only [List.foldl_cons, hg]
      rw [List.filter_cons_of_pos (by simp [groupMatches, hg])]
      simp only [List.flatMap_cons, ih, List.append_assoc]
    · simp only [List.foldl_cons, hg]
      by_cases hi : i = instruction_index
      · rw [if_pos hi,
          List.filter_cons_of_pos (by simp [groupMatches, hg, hi])]
        simp only [List.flatMap_cons, ih, List.append_assoc]
      · rw [if_neg hi,
          List.filter_cons_of_neg (by simp [groupMatches, hg, hi])]
        exact ih acc

/-- C6: the inner-instruction correlator gathers the nested instructions
of every group whose index equals the top-level index and of every group
without an explicit index (in document order), keeps only those whose
program id matches the top-level instruction's, base58-decodes their data,
silently discards decoded payloads shorter than 16 bytes, decodes the
bytes after the 16-byte header as the fixed event schema (mint, sol and
token u64 amounts, is-buy flag, user, i64 timestamp, two reserve u64
fields at fixed offsets) and returns the events in encounter order. -/
theorem C6_inner_instruction_correlator :
    (∀ (tx : Transaction) (instruction_index : Nat),
      gatherInner tx instruction_index =
        (tx.meta.innerInstructions.filter (groupMatches instruction_index)).flatMap
          (·.instructions))
    ∧ (∀ (tx : Transaction) (idx : Nat) (top : Instruction) (pid : String),
      tx.message.instructions.get? idx = some top →
      resolveAccount tx top.programIdIndex = Except.ok pid →
      parse_swap tx idx = swapEvents tx pid (gatherInner tx idx))
    ∧ (∀ (tx : Transaction) (pid : String), swapEvents tx pid [] = Except.ok [])
    ∧ (∀ (tx : Transaction) (pid sub : String) (i : InnerInstr) (rest : List InnerInstr),
      resolveAccount tx i.programIdIndex = Except.ok sub → sub ≠ pid →
      swapEvents tx pid (i :: rest) = swapEvents tx pid rest)
    ∧ (∀ (tx : Transaction) (pid : String) (i : InnerInstr) (rest : List InnerInstr)
        (raw : List Nat),
      resolveAccount tx i.programIdIndex = Except.ok pid →
      base58Decode (i.data.getD "") = Except.ok raw →
      raw.length < 16 →
      swapEvents tx pid (i :: rest) = swapEvents tx pid rest)
    ∧ (∀ (tx : Transaction) (pid : String) (i : InnerInstr) (rest : List InnerInstr)
        (raw : List Nat) (ev : SwapData) (evs : List SwapData),
      resolveAccount tx i.programIdIndex = Except.ok pid →
      base58Decode (i.data.getD "") = Except.ok raw →
      ¬ raw.length < 16 →
      SwapData.decode (raw.drop 16) = Except.ok ev →
      swapEvents tx pid rest = Except.ok evs →
      swapEvents tx pid (i :: rest) = Except.ok (ev :: evs))
    ∧ (∀ bs : List Nat, 105 ≤ bs.length →
      (bs.getD 48 0 = 0 ∨ bs.getD 48 0 = 1) →
      SwapData.decode bs = Except.ok
        ⟨base58Encode (bs.take 32), leBytes ((bs.drop 32).take 8),
         leBytes ((bs.drop 40).take 8), bs.getD 48 0 == 1,
         base58Encode ((bs.drop 49).take 32), leI64 ((bs.drop 81).take 8),
         leBytes ((bs.drop 89).take 8), leBytes ((bs.drop 97).take 8)⟩) := by
  refine ⟨?_, ?_, ?_, ?_, ?_, ?_, ?_⟩
  · intro tx instruction_index
    exact gatherInner_go instruction_index tx.meta.innerInstructions []
  · intro tx idx top pid h1 h2
    have hI : getInstr tx idx = Except.ok top := by unfold getInstr; rw [h1]
    unfold parse_swap
    rw [hI, exbind_ok, h2, exbind_ok]
  · intro tx pid
    rfl
  · intro tx pid sub i rest h hne
    show (do
      let sub_prog_id ← resolveAccount tx i.programIdIndex
      if sub_prog_id ≠ pid then swapEvents tx pid rest
      else do
        let raw_data ← base58Decode (i.data.getD "")
        if raw_data.length < 16 then swapEvents tx pid rest
        else do
          let parsed_obj ← SwapData.decode (raw_data.drop 16)
          let others ← swapEvents tx pid rest
          Except.ok (parsed_obj :: others)) = swapEvents tx pid rest
    rw [h, exbind_ok, if_pos hne]
  · intro tx pid i rest raw h hraw hlen
    show (do
      let sub_prog_id ← resolveAccount tx i.programIdIndex
      if sub_prog_id ≠ pid then swapEvents tx pid rest
      else do
        let raw_data ← base58Decode (i.data.getD "")
        if raw_data.length < 16 then swapEvents tx pid rest
        else do
          let parsed_obj ← SwapData.decode (raw_data.drop 16)
          let others ← swapEvents tx pid rest
          Except.ok (parsed_obj :: others)) = swapEvents tx pid rest
    rw [h, exbind_ok, if_neg (by simp), hraw, exbind_ok, if_pos hlen]
  · intro tx pid i rest raw ev evs h hraw hlen hdec hrest
    show (do
      let sub_prog_id ← resolveAccount tx i.programIdIndex
      if sub_prog_id ≠ pid then swapEvents tx pid rest
      else do
        let raw_data ← base58Decode (i.data.getD "")
        if raw_data.length < 16 then swapEvents tx pid rest
        else do
          let parsed_obj ← SwapData.decode (raw_data.drop 16)
          let others ← swapEvents tx pid rest
          Except.ok (parsed_obj :: others)) = Except.ok (ev :: evs)
    rw [h, exbind_ok, if_neg (by simp), hraw, exbind_ok, if_neg hlen, hdec, exbind_ok,
      hrest, exbind_ok]
  · intro bs h105 h01
    have hm : readPubkey bs = Except.ok (base58Encode (bs.take 32), bs.drop 32) :=
      readPubkey_ok bs (by omega)
    have hs : readU64 (bs.drop 32) =
        Except.ok (leBytes ((bs.drop 32).take 8), bs.drop 40) := by
      rw [readU64_ok _ (by rw [List.length_drop]; omega)]
      simp [List.drop_drop]
    have ht : readU64 (bs.drop 40) =
        Except.ok (leBytes ((bs.drop 40).take 8), bs.drop 48) := by
      rw [readU64_ok _ (by rw [List.length_drop]; omega)]
      simp [List.drop_drop]
    have hb : readBool (bs.drop 48) = Except.ok (bs.getD 48 0 == 1, bs.drop 49) := by
      rw [readBool_ok _ (by rw [List.length_drop]; omega)
        (by simpa [List.getD_eq_getElem?_getD, List.getElem?_drop] using h01)]
      simp [List.drop_drop, List.getD_eq_getElem?_getD, List.getElem?_drop]
    have hu : readPubkey (bs.drop 49) =
        Except.ok (base58Encode ((bs.drop 49).take 32), bs.drop 81) := by
      rw [readPubkey_ok _ (by rw [List.length_drop]; omega)]
      simp [List.drop_drop]
    have hts : readI64 (bs.drop 81) =
        Except.ok (leI64 ((bs.drop 81).take 8), bs.drop 89) := by
      rw [readI64_ok _ (by rw [List.length_drop]; omega)]
      simp [List.drop_drop]
    have hv1 : readU64 (bs.drop 89) =
        Except.ok (leBytes ((bs.drop 89).take 8), bs.drop 97) := by
      rw [readU64_ok _ (by rw [List.length_drop]; omega)]
      simp [List.drop_drop]
    have hv2 : readU64 (bs.drop 97) =
        Except.ok (leBytes ((bs.drop 97).take 8), bs.drop 105) := by
      rw [readU64_ok _ (by rw [List.length_drop]; omega)]
      simp [List.drop_drop]
    simp only [SwapData.decode, hm, hs, ht, hb, hu, hts, hv1, hv2, exbind_ok]

/-- Base58 text of a 121-byte inner-instruction payload: a 16-byte zero
header followed by a swap event (zero mint, 2000000000 lamports, 1234
tokens, is-buy set, zero user, zero timestamp and reserves). -/
def c6data : String :=
  "11111111111111111111111111111111111111111111111113Bt6PRsWj3q3r7GzVwdYKnthS5JHWZMnyMLtN7borY1C7PQCpi4FQ1opRU3nHCvoFEvM3SFWS2a95MdwCdcUNCcVBj5BDFAQebq"

/-- The byte list `c6data` decodes to. -/
def c6raw : List Nat :=
  List.replicate 48 0 ++ [0, 148, 53, 119, 0, 0, 0, 0] ++ [210, 4, 0, 0, 0, 0, 0, 0] ++
    [1] ++ List.replicate 56 0

/-- The decoded swap event of `c6raw`. -/
def c6ev : SwapData :=
  ⟨"11111111111111111111111111111111", 2000000000, 1234, true,
   "11111111111111111111111111111111", 0, 0, 0⟩

/-- The event-bearing inner instruction of the correlator test
transaction. -/
def c6inner : InnerInstr := ⟨0, some c6data, []⟩

/-- A correlator test transaction: one top-level instruction, one matching
indexed group carrying the event, one group with a different index (to be
ignored) and one legacy group without an index (to be gathered). -/
def c6tx : Transaction :=
  mkTx ["Pump"] [] [] [⟨0, none, [], none⟩]
    (mkMeta [⟨some 0, [c6inner]⟩, ⟨some 1, [⟨1, none, []⟩]⟩, ⟨none, [⟨0, none, []⟩]⟩]
      [] [])

/-- Witness for C6 on `c6tx`: the gathered groups are the index-0 group
and the index-free group (the index-1 group is dropped), the correlation
starts from the top-level program id, the event list is the decoded event
followed by nothing (the dataless legacy instruction is skipped as
shorter than 16 bytes), and the event layout decodes field by field. -/
theorem C6_witness :
    gatherInner c6tx 0 = [c6inner, ⟨0, none, []⟩]
    ∧ parse_swap c6tx 0 = swapEvents c6tx "Pump" (gatherInner c6tx 0)
    ∧ swapEvents c6tx "Pump" [⟨0, none, []⟩] = Except.ok []
    ∧ swapEvents c6tx "Pump" [c6inner, ⟨0, none, []⟩] = Except.ok [c6ev]
    ∧ SwapData.decode (c6raw.drop 16) = Except.ok c6ev := by
  have hskip : swapEvents c6tx "Pump" [⟨0, none, []⟩] = Except.ok [] :=
    (C6_inner_instruction_correlator.2.2.2.2.1 c6tx "Pump" ⟨0, none, []⟩ [] []
        (by decide) (by decide) (by decide)).trans
      (C6_inner_instruction_correlator.2.2.1 c6tx "Pump")
  refine ⟨(C6_inner_instruction_correlator.1 c6tx 0).trans (by decide),
    C6_inner_instruction_correlator.2.1 c6tx 0 ⟨0, none, [], none⟩ "Pump"
      (by decide) (by decide),
    hskip,
    C6_inner_instruction_correlator.2.2.2.2.2.1 c6tx "Pump" c6inner [⟨0, none, []⟩]
      c6raw c6ev [] (by decide) (by decide) (by decide) (by decide) hskip,
    (C6_inner_instruction_correlator.2.2.2.2.2.2 (c6raw.drop 16) (by decide)
        (by decide)).trans (by decide)⟩

/-- A successful parse loop produces one record per routed index. -/
theorem parseGo_length (tx : Transaction) :
    ∀ (idxs : List Nat) (l : List ParsedInstruction),
      parseGo tx idxs = Except.ok l → l.length = idxs.length := by
  intro idxs
  induction idxs with
  | nil =>
    intro l h
    cases h
    rfl
  | cons i rest ih =>
    intro l h
    unfold parseGo at h
    cases hr : routeOne tx i with
    | error e => rw [hr, exbind_err] at h; cases h
    | ok r =>
      rw [hr, exbind_ok] at h
      cases hg : parseGo tx rest with
      | error e => rw [hg, exbind_err] at h; cases h
      | ok rs =>
        rw [hg, exbind_ok] at h
        cases h
        simp [ih rs hg]

/-- Positionally, the `j`-th record of a successful parse loop is the
routing result of the `j`-th index. -/
theorem parseGo_get (tx : Transaction) :
    ∀ (idxs : List Nat) (l : List ParsedInstruction) (j : Nat),
      parseGo tx idxs = Except.ok l →
      l.get? j = (idxs.get? j).bind fun i => (routeOne tx i).toOption := by
  intro idxs
  induction idxs with
  | nil =>
    intro l j h
    cases h
    rfl
  | cons i rest ih =>
    intro l j h
    unfold parseGo at h
    cases hr : routeOne tx i with
    | error e => rw [hr, exbind_err] at h; cases h
    | ok r =>
      rw [hr, exbind_ok] at h
      cases hg : parseGo tx rest with
      | error e => rw [hg, exbind_err] at h; cases h
      | ok rs =>
        rw [hg, exbind_ok] at h
        cases h
        cases j with
        | zero => simp [hr, Except.toOption]
        | succ j => simpa using ih rs j hg

/-- When every index routes successfully the parse loop succeeds. -/
theorem parseGo_isOk (tx : Transaction) :
    ∀ idxs : List Nat,
      (∀ i ∈ idxs, (routeOne tx i).isOk = true) → (parseGo tx idxs).isOk = true := by
  intro idxs
  induction idxs with
  | nil => intro _; rfl
  | cons i rest ih =>
    intro h
    unfold parseGo
    cases hr : routeOne tx i with
    | error e =>
      exact absurd (h i (by simp)) (by simp [hr, Except.isOk, Except.toBool])
    | ok r =>
      rw [exbind_ok]
      cases hg : parseGo tx rest with
      | error e =>
        have hrest := ih fun x hx => h x (by simp [hx])
        rw [hg] at hrest
        exact absurd hrest (by simp [Except.isOk, Except.toBool])
      | ok rs => rw [exbind_ok]; rfl

/-- C1 (amended): `parse` resolves each instruction's program id through
the static key list `message.accountKeys` (not the unified account list).
With that resolution rule the rest of the claim holds: a successful parse
yields exactly one record per raw instruction and the `j`-th record is the
routing of the `j`-th instruction; an instruction whose statically
resolved program id has no registered handler and whose data
base58-decodes always routes to `Unknown(instruction_index, "Unknown")`;
and a transaction all of whose instructions route successfully parses
without error. -/
theorem C1_router_order_and_unknown :
    (∀ (tx : Transaction) (l : List ParsedInstruction),
      parse tx = Except.ok l →
      l.length = tx.message.instructions.length ∧
      ∀ j, j < l.length → l.get? j = (routeOne tx j).toOption)
    ∧ (∀ (tx : Transaction) (idx : Nat) (instr : Instruction) (pid : String)
        (bs : List Nat),
      tx.message.instructions.get? idx = some instr →
      tx.message.accountKeys.get? instr.programIdIndex = some pid →
      (lookupHandler pid).isNone = true →
      base58Decode (instr.data.getD "") = Except.ok bs →
      routeOne tx idx =
        Except.ok ⟨pid, "Unknown", "Unknown", Payload.unknownInstr idx⟩)
    ∧ (∀ tx : Transaction,
      (∀ i, i < tx.message.instructions.length → (routeOne tx i).isOk = true) →
      (parse tx).isOk = true) := by
  refine ⟨?_, ?_, ?_⟩
  · intro tx l h
    have hlen : l.length = tx.message.instructions.length := by
      rw [parseGo_length tx _ l h, List.length_range]
    refine ⟨hlen, ?_⟩
    intro j hj
    rw [parseGo_get tx _ l j h, List.get?_range (by rw [hlen] at hj; exact hj)]
    rfl
  · intro tx idx instr pid bs h1 h2 h3 h4
    have hI : getInstr tx idx = Except.ok instr := by unfold getInstr; rw [h1]
    rw [Option.isNone_iff_eq_none] at h3
    unfold routeOne
    rw [hI, exbind_ok, h2]
    show ((lookupHandler pid).getD (UnknownParser pid)).route tx idx = _
    rw [h3, Option.getD_none]
    unfold Program.route
    rw [hI, exbind_ok, h4, exbind_ok]
    rfl
  · intro tx h
    exact parseGo_isOk tx _ fun i hi => h i (List.mem_range.1 hi)

/-- Witness for C1 at a one-instruction transaction whose program id is
not registered: parse succeeds with the single Unknown record. -/
theorem C1_witness :
    parse (mkTx ["Prog9"] [] [] [⟨0, none, [], none⟩] (mkMeta [] [] [])) =
      Except.ok [⟨"Prog9", "Unknown", "Unknown", Payload.unknownInstr 0⟩]
    ∧ routeOne (mkTx ["Prog9"] [] [] [⟨0, none, [], none⟩] (mkMeta [] [] [])) 0 =
      Except.ok ⟨"Prog9", "Unknown", "Unknown", Payload.unknownInstr 0⟩
    ∧ (parse (mkTx ["Prog9"] [] [] [⟨0, none, [], none⟩] (mkMeta [] [] []))).isOk = true
    ∧ ([⟨"Prog9", "Unknown", "Unknown", Payload.unknownInstr 0⟩] :
        List ParsedInstruction).length = 1 := by
  have hroute := C1_router_order_and_unknown.2.1
    (mkTx ["Prog9"] [] [] [⟨0, none, [], none⟩] (mkMeta [] [] [])) 0
    ⟨0, none, [], none⟩ "Prog9" [] (by decide) (by decide) (by decide) (by decide)
  have hparse : parse (mkTx ["Prog9"] [] [] [⟨0, none, [], none⟩] (mkMeta [] [] [])) =
      Except.ok [⟨"Prog9", "Unknown", "Unknown", Payload.unknownInstr 0⟩] := by
    show (do
      let action ← routeOne (mkTx ["Prog9"] [] [] [⟨0, none, [], none⟩] (mkMeta [] [] [])) 0
      let others ← parseGo (mkTx ["Prog9"] [] [] [⟨0, none, [], none⟩] (mkMeta [] [] [])) []
      Except.ok (action :: others)) = _
    rw [hroute, exbind_ok]
    rfl
  have hlen := (C1_router_order_and_unknown.1
    (mkTx ["Prog9"] [] [] [⟨0, none, [], none⟩] (mkMeta [] [] []))
    [⟨"Prog9", "Unknown", "Unknown", Payload.unknownInstr 0⟩] hparse).1
  have hok := C1_router_order_and_unknown.2.2
    (mkTx ["Prog9"] [] [] [⟨0, none, [], none⟩] (mkMeta [] [] []))
    (fun i hi => by
      have h0 : i = 0 := by
        simp [mkTx] at hi
        omega
      rw [h0, hroute]
      rfl)
  exact ⟨hparse, hroute, hok, hlen⟩

/-- Counterexample to C1 as stated: a normalized transaction whose single
instruction has `programIdIndex = 1`, valid against the unified account
list (which resolves it to the unregistered id `"Prog9"`), makes `parse`
raise `IndexError` instead of producing an `Unknown` record, because the
router looks the program id up in `message.accountKeys` alone. -/
theorem C1_counterexample :
    (mkTx ["A"] ["Prog9"] [] [⟨1, none, [], none⟩] (mkMeta [] [] [])).all_accounts.get? 1 =
      some "Prog9"
    ∧ (lookupHandler "Prog9").isNone = true
    ∧ parse (mkTx ["A"] ["Prog9"] [] [⟨1, none, [], none⟩] (mkMeta [] [] [])) =
      Except.error PyErr.indexError := by
  refine ⟨by decide, by decide, ?_⟩
  show (do
    let action ← routeOne (mkTx ["A"] ["Prog9"] [] [⟨1, none, [], none⟩] (mkMeta [] [] [])) 0
    let others ← parseGo (mkTx ["A"] ["Prog9"] [] [⟨1, none, [], none⟩] (mkMeta [] [] [])) []
    Except.ok (action :: others)) = Except.error PyErr.indexError
  rw [show routeOne (mkTx ["A"] ["Prog9"] [] [⟨1, none, [], none⟩] (mkMeta [] [] [])) 0 =
      Except.error PyErr.indexError by decide, exbind_err]

end Soltxs
